import Mathlib

/-!
# gremlin-rs core: a shallow embedding in Lean

This file embeds the core of the `gremlin-client` crate — the polymorphic
value model (`GValue`/`GKey`, `src/structure/value.rs`), the GraphBinary V1
codec (`src/io/graph_binary_v1.rs`), the GraphSON v2/v3 writer
(`src/io/mod.rs`), the client dispatch and session logic (`src/client.rs`)
and the pool health check (`src/pool.rs`) — and proves properties of the
embedded definitions.

Modelling conventions:

* Rust machine integers (`i32`, `i64`) are modelled as `Int`, with two's
  complement byte encodings made explicit (`% 2^32` / `% 2^64`); `u8` bytes
  are `Nat` values below 256, and byte buffers are `List Nat`.
* Rust `f32`/`f64` payloads are carried as their IEEE-754 bit patterns
  (`Nat` below `2^32` / `2^64`): the codec only moves their bytes, and the
  byte-level big-endian encoding of a float is exactly the big-endian
  encoding of its bit pattern.
* Rust `String` values are carried as their UTF-8 byte sequences
  (`List Nat`); `String::from_utf8` is modelled by an explicit UTF-8
  validator.  ASCII literals are injected with `ascii`.
* `chrono::DateTime<Utc>` is carried as the pair of its millisecond
  timestamp (`timestamp_millis()`, an `Int`) and the sub-millisecond
  nanosecond remainder; `Utc.timestamp_millis_opt` succeeds exactly on the
  `chrono`-representable millisecond range and yields a zero remainder.
* Serializers that in Rust append to a `&mut Vec<u8>` are modelled as
  functions returning the appended bytes; sequential writes become list
  concatenation.  `todo!()` / `unimplemented!()` / `panic!` sites are
  modelled by a dedicated `GremlinError.panic` outcome so that panics stay
  distinguishable from returned `Err` values.
* `format!` error messages are modelled structurally by `CastMsg`: a fixed
  message is `CastMsg.lit`, and the recurring template
  `format!("Cannot cast {:?} to <target>", value)` is `CastMsg.fmt value
  "<target>"`, keeping both the printed value and the target name.
-/

/-! ## Bytes, integers and UTF-8 -/

/-- Big-endian byte encoding of a natural number into exactly `w` bytes
(the value is taken modulo `2 ^ (8 * w)`, matching `to_be_bytes` applied to a
machine integer of width `w`). -/
def natToBytesBE : Nat → Nat → List Nat
  | 0, _ => []
  | w + 1, n => natToBytesBE w (n / 256) ++ [n % 256]

/-- Big-endian interpretation of a byte list as a natural number. -/
def bytesToNatBE (bs : List Nat) : Nat :=
  bs.foldl (fun acc b => acc * 256 + b) 0

/-- Reading a `w`-byte two's complement big-endian value: the unsigned value
`u` reinterpreted as a signed integer of width `8 * w` bits. -/
def intFromTwos (w : Nat) (u : Nat) : Int :=
  if u < 2 ^ (8 * w - 1) then (u : Int) else (u : Int) - 2 ^ (8 * w)

/-- Rust `i32::to_be_bytes`: 4-byte two's complement big-endian. -/
def int32ToBeBytes (v : Int) : List Nat :=
  natToBytesBE 4 ((v % 4294967296).toNat)

/-- Rust `i64::to_be_bytes`: 8-byte two's complement big-endian. -/
def int64ToBeBytes (v : Int) : List Nat :=
  natToBytesBE 8 ((v % 18446744073709551616).toNat)

/-- UTF-8 continuation byte (`0x80 ..= 0xBF`). -/
def utf8Cont (b : Nat) : Bool := 128 ≤ b && b ≤ 191

/-- Strict UTF-8 validity of a byte sequence, as enforced by Rust's
`String::from_utf8` (WHATWG table: overlong forms, surrogates and values
above `U+10FFFF` are rejected). -/
def utf8Valid : List Nat → Bool
  | [] => true
  | b :: rest =>
    if b ≤ 127 then utf8Valid rest
    else if 194 ≤ b && b ≤ 223 then
      match rest with
      | c1 :: r => utf8Cont c1 && utf8Valid r
      | [] => false
    else if b = 224 then
      match rest with
      | c1 :: c2 :: r => (160 ≤ c1 && c1 ≤ 191) && utf8Cont c2 && utf8Valid r
      | _ => false
    else if (225 ≤ b && b ≤ 236) || b = 238 || b = 239 then
      match rest with
      | c1 :: c2 :: r => utf8Cont c1 && utf8Cont c2 && utf8Valid r
      | _ => false
    else if b = 237 then
      match rest with
      | c1 :: c2 :: r => (128 ≤ c1 && c1 ≤ 159) && utf8Cont c2 && utf8Valid r
      | _ => false
    else if b = 240 then
      match rest with
      | c1 :: c2 :: c3 :: r =>
        (144 ≤ c1 && c1 ≤ 191) && utf8Cont c2 && utf8Cont c3 && utf8Valid r
      | _ => false
    else if 241 ≤ b && b ≤ 243 then
      match rest with
      | c1 :: c2 :: c3 :: r => utf8Cont c1 && utf8Cont c2 && utf8Cont c3 && utf8Valid r
      | _ => false
    else if b = 244 then
      match rest with
      | c1 :: c2 :: c3 :: r =>
        (128 ≤ c1 && c1 ≤ 143) && utf8Cont c2 && utf8Cont c3 && utf8Valid r
      | _ => false
    else false

/-- UTF-8 bytes of an ASCII string literal (all our literals are ASCII, so
the code points are the bytes). -/
def ascii (s : String) : List Nat := s.data.map Char.toNat

/-! ## Atoms of the value model

`Token`, `Edge`, `Vertex` internals, `Uuid` and the closed enumerations live
in `src/structure` files that are not part of the sources under review; they
are modelled by the payloads the reviewed code actually touches.  `Edge` is
treated as an atom (every reviewed code path either moves an `Edge`
wholesale or panics on it). -/

/-- Closed enumeration `T` (token keys): `Id`, `Key`, `Label`, `Value`. -/
inductive TEnum where
  | id | key | label | value
  deriving DecidableEq

/-- Closed enumeration `Scope`: `Global`, `Local`. -/
inductive ScopeE where
  | global | local
  deriving DecidableEq

/-- Closed enumeration `Order`: `Asc`, `Desc`, `Shuffle`. -/
inductive OrderE where
  | asc | desc | shuffle
  deriving DecidableEq

/-- Closed enumeration `Cardinality`: `List`, `Single`, `Set`. -/
inductive CardE where
  | list | single | set
  deriving DecidableEq

/-- Closed enumeration `Merge`: `OnCreate`, `OnMatch`, `OutV`, `InV`. -/
inductive MergeE where
  | onCreate | onMatch | outV | inV
  deriving DecidableEq

/-- Closed enumeration `Direction`: `Out`, `From`, `In`, `To` (the four
constructors matched by `write_graphson`). -/
inductive DirectionE where
  | out | from | in_dir | to
  deriving DecidableEq

/-- Closed enumeration `Column`: `Keys`, `Values`. -/
inductive ColumnE where
  | keys | values
  deriving DecidableEq

/-- `Token` wraps a string; `value()` exposes it. -/
structure GToken where
  value : List Nat
  deriving DecidableEq

/-- `Edge`, modelled as an atom: no reviewed code path inspects its fields
(the binary and GraphSON writers panic on it, and key conversions move it
wholesale). -/
structure GEdge where
  payload : List Nat
  deriving DecidableEq

/-- `uuid::Uuid`: 16 raw bytes (`as_bytes` / `from_bytes`). -/
structure RUuid where
  bytes : List Nat
  deriving DecidableEq

/-- The millisecond timestamp of the smallest `chrono` date
(`-262144-01-01T00:00:00Z`, proleptic Gregorian; chrono years span
`i32::MIN >> 13` to `i32::MAX >> 13`). -/
def dateMinMillis : Int := -8334632851200000

/-- The millisecond timestamp just past the largest `chrono` date
(`262143-12-31T23:59:59.999Z`). -/
def dateMaxMillis : Int := 8210298412799999

/-- `chrono::DateTime<Utc>`, carried as `timestamp_millis()` plus the
sub-millisecond nanosecond remainder (`0 ≤ subNanos < 10^6`; leap-second
nanoseconds are not modelled).  `timestamp_millis()` floors, i.e. returns
`millis` and discards `subNanos`. -/
structure RDate where
  millis : Int
  subNanos : Nat
  deriving DecidableEq

/-- Whether `Utc.timestamp_millis_opt` yields `LocalResult::Single` for a
millisecond value: exactly the `chrono`-representable range. -/
def dateInRange (m : Int) : Bool :=
  dateMinMillis ≤ m && m ≤ dateMaxMillis

/-! ## The value model (`src/structure/value.rs`)

`GValue` follows the `enum GValue` of `value.rs`, extended with the
`Merge` / `Direction` / `Column` variants that `write_graphson`
(`src/io/mod.rs`) pattern-matches, and `GKey` follows the constructors
matched by `impl GraphBinaryV1Ser for &GKey`.  Variants whose payload types
are not among the reviewed sources and whose payloads no reviewed code path
inspects (`VertexProperty`, `Property`, `Path`, `TraversalMetrics`,
`Metric`, `TraversalExplanation`, `IntermediateRepr`) are modelled as bare
constructors.  Structures are inlined as constructor fields: `Vertex` by the
`GValue` its id converts to (`v.id().to_gvalue()` is the only reviewed
access), `P`/`TextP` by `(operator, value)`, `Traverser` by
`(bulk, value)`, `Bytecode` by its step and source instruction lists, and an
`Instruction` by `(operator, args)`.  List-like payloads use the spine types
`GVList` / `GKVList` / `GInstrList` so that all recursion is structural. -/

mutual
inductive GValue where
  | null
  | vertex (id : GValue)
  | edge (e : GEdge)
  | vertexProperty
  | property
  | uuid (u : RUuid)
  | int32 (v : Int)
  | int64 (v : Int)
  | float (bits : Nat)
  | double (bits : Nat)
  | date (d : RDate)
  | list (xs : GVList)
  | set (xs : GVList)
  | map (kvs : GKVList)
  | token (tk : GToken)
  | string (s : List Nat)
  | path
  | traversalMetrics
  | metric
  | traversalExplanation
  | intermediateRepr
  | p (operator : List Nat) (pv : GValue)
  | t (tv : TEnum)
  | bytecode (steps : GInstrList) (sources : GInstrList)
  | traverser (bulk : Int) (value : GValue)
  | scope (sc : ScopeE)
  | order (o : OrderE)
  | bool (b : Bool)
  | textP (operator : List Nat) (pv : GValue)
  | pop (repr : List Nat)
  | cardinality (c : CardE)
  | merge (m : MergeE)
  | direction (d : DirectionE)
  | column (c : ColumnE)
  deriving DecidableEq
inductive GVList where
  | nil
  | cons (hd : GValue) (tl : GVList)
  deriving DecidableEq
inductive GKey where
  | keyT (tv : TEnum)
  | keyString (s : List Nat)
  | keyToken (tk : GToken)
  | keyVertex (id : GValue)
  | keyEdge (e : GEdge)
  | keyDirection (d : DirectionE)
  deriving DecidableEq
inductive GKVList where
  | nil
  | cons (k : GKey) (v : GValue) (tl : GKVList)
  deriving DecidableEq
inductive GInstrList where
  | nil
  | cons (operator : List Nat) (args : GVList) (tl : GInstrList)
  deriving DecidableEq
end

/-- Number of elements of a value list. -/
def GVList.len : GVList → Nat
  | .nil => 0
  | .cons _ tl => tl.len + 1

/-- Number of entries of a key/value list. -/
def GKVList.len : GKVList → Nat
  | .nil => 0
  | .cons _ _ tl => tl.len + 1

/-- Number of instructions. -/
def GInstrList.len : GInstrList → Nat
  | .nil => 0
  | .cons _ _ tl => tl.len + 1

/-- The keys of a key/value list, in order. -/
def GKVList.keys : GKVList → List GKey
  | .nil => []
  | .cons k _ tl => k :: tl.keys

/-! ## Errors (`src/error.rs`, as used by the reviewed code) -/

/-- Structural model of the `String` messages carried by
`GremlinError::Cast`: `lit` is a fixed message, `fmt v target` is
`format!("Cannot cast {:?} to <target>", v)`, and `nullableFlag b` is
`format!("Unexpected byte for nullable check: {:?}", b)`. -/
inductive CastMsg where
  | lit (s : String)
  | fmt (src : GValue) (target : String)
  | nullableFlag (b : Option Nat)
  deriving DecidableEq

/-- The `GremlinError` variants the reviewed code produces, plus a dedicated
`panic` outcome for `todo!()` / `unimplemented!()` / `panic!` sites (a Rust
panic is not an `Err` value; keeping it separate keeps divergence visible). -/
inductive GremlinError where
  | cast (m : CastMsg)
  | request (code : Int) (message : List Nat)
  | generic (m : String)
  | panic
  deriving DecidableEq

/-- Decidable equality of `Except` results (used to evaluate the codec on
concrete inputs). -/
instance {e a : Type} [DecidableEq e] [DecidableEq a] : DecidableEq (Except e a) := fun x y =>
  match x, y with
  | .ok v1, .ok v2 =>
    if h : v1 = v2 then .isTrue (by rw [h]) else .isFalse (fun hh => h (by injection hh))
  | .error e1, .error e2 =>
    if h : e1 = e2 then .isTrue (by rw [h]) else .isFalse (fun hh => h (by injection hh))
  | .ok _, .error _ => .isFalse (fun hh => by injection hh)
  | .error _, .ok _ => .isFalse (fun hh => by injection hh)

/-! ## Key conversions

`impl From<GKey> for GValue` is in `src/structure/value.rs` (the four arms
shown there); `GKey::from_gvalue` lives in `crate::conversion`, which is not
among the reviewed sources, and is modelled from the spec. -/

/-- Conversion `From<GKey> for GValue` (`value.rs`): a `String` key becomes
`GValue::String`, a `Token` key becomes the `GValue::String` of its value, a
`Vertex`/`Edge` key is moved wholesale.  The `T` and `Direction` arms are
not among the reviewed sources; following the spec's invariant that every
key converts to a value, they map to the matching value variants. -/
def gkeyToGValue : GKey → GValue
  | .keyString s => .string s
  | .keyToken tk => .string tk.value
  | .keyVertex id => .vertex id
  | .keyEdge e => .edge e
  | .keyT tv => .t tv
  | .keyDirection d => .direction d

/-- Modelled from the spec: `GKey::from_gvalue` (`crate::conversion`, not
among the reviewed sources).  The spec states the reverse conversion is
guarded — only Value variants that are valid keys convert, and it fails
otherwise — so the variants in the image of the key-to-value conversion
(string, vertex, edge, direction) are accepted and everything else is a
Cast error. -/
def GKey.fromGValue : GValue → Except GremlinError GKey
  | .string s => .ok (.keyString s)
  | .vertex id => .ok (.keyVertex id)
  | .edge e => .ok (.keyEdge e)
  | .direction d => .ok (.keyDirection d)
  | v => .error (.cast (.fmt v "GKey"))

/-! ## GraphBinary V1 serialization (`src/io/graph_binary_v1.rs`) -/

/-- Data type codes (`tinkerpop` GraphBinary). -/
def INTEGER : Nat := 0x01
def LONG : Nat := 0x02
def STRING : Nat := 0x03
def DATE : Nat := 0x04
def DOUBLE : Nat := 0x07
def FLOAT : Nat := 0x08
def LIST : Nat := 0x09
def MAP : Nat := 0x0A
def SET : Nat := 0x0B
def UUID : Nat := 0x0C
def EDGE : Nat := 0x0D
def PATH : Nat := 0x0E
def PROPERTY : Nat := 0x0F
def VERTEX : Nat := 0x11
def VERTEX_PROPERTY : Nat := 0x12
def BYTECODE : Nat := 0x15
def SCOPE : Nat := 0x1F
def TRAVERSER : Nat := 0x21
def UNSPECIFIED_NULL_OBEJECT : Nat := 0xFE

def VERSION_BYTE : Nat := 0x81
def VALUE_FLAG : Nat := 0x00
def VALUE_NULL_FLAG : Nat := 0x01

/-- Rust `impl GraphBinaryV1Ser for &str`: 4-byte big-endian length then the
UTF-8 bytes; fails when the byte length exceeds `i32::MAX`. -/
def strToBeBytes (s : List Nat) : Except GremlinError (List Nat) :=
  if s.length < 2147483648 then .ok (int32ToBeBytes (s.length : Int) ++ s)
  else .error (.cast (.lit "String length exceeds i32"))

/-- The `write_usize_as_i32_be_bytes` helper: a `usize` length written as a
4-byte big-endian `i32`, failing when it exceeds `i32::MAX`. -/
def writeUsizeAsI32 (n : Nat) : Except GremlinError (List Nat) :=
  if n < 2147483648 then .ok (int32ToBeBytes (n : Int))
  else .error (.cast (.lit "Invalid usize bytes exceed i32"))

/-- A fully-qualified string: type code `0x03`, value flag `0x00`, then the
length-prefixed bytes (this is `(&GValue::from(<string>)).to_be_bytes`,
used by the string arm, the `Scope` arm and string keys). -/
def serFqString (s : List Nat) : Except GremlinError (List Nat) :=
  match strToBeBytes s with
  | .ok payload => .ok ([STRING, VALUE_FLAG] ++ payload)
  | .error e => .error e

/-- Rust `impl GraphBinaryV1Ser for &GKey`: only `String` keys serialize
(as a fully qualified string); every other arm is `todo!()`. -/
def GKey.toBeBytes : GKey → Except GremlinError (List Nat)
  | .keyT _ => .error .panic
  | .keyString s => serFqString s
  | .keyToken _ => .error .panic
  | .keyVertex _ => .error .panic
  | .keyEdge _ => .error .panic
  | .keyDirection _ => .error .panic

mutual
/-- Rust `impl GraphBinaryV1Ser for &GValue`: the fully-qualified encoding.
Arms appear in source order; the trailing catch-all is the source's
`other => unimplemented!("TODO ...")`, and the commented-out `Traverser`
arm falls into it. -/
def GValue.toBeBytes : GValue → Except GremlinError (List Nat)
  | .int32 v => .ok ([INTEGER, VALUE_FLAG] ++ int32ToBeBytes v)
  | .int64 v => .ok ([LONG, VALUE_FLAG] ++ int64ToBeBytes v)
  | .string s =>
    match strToBeBytes s with
    | .ok payload => .ok ([STRING, VALUE_FLAG] ++ payload)
    | .error e => .error e
  | .date d => .ok ([DATE, VALUE_FLAG] ++ int64ToBeBytes d.millis)
  | .double bits => .ok ([DOUBLE, VALUE_FLAG] ++ natToBytesBE 8 bits)
  | .float bits => .ok ([FLOAT, VALUE_FLAG] ++ natToBytesBE 4 bits)
  | .list xs =>
    match writeUsizeAsI32 xs.len with
    | .error e => .error e
    | .ok lenB =>
      match serListItems xs with
      | .ok body => .ok ([LIST, VALUE_FLAG] ++ lenB ++ body)
      | .error e => .error e
  | .map kvs =>
    match writeUsizeAsI32 kvs.len with
    | .error e => .error e
    | .ok lenB =>
      match serMapPairs kvs with
      | .ok body => .ok ([MAP, VALUE_FLAG] ++ lenB ++ body)
      | .error e => .error e
  | .set xs =>
    match writeUsizeAsI32 xs.len with
    | .error e => .error e
    | .ok lenB =>
      match serListItems xs with
      | .ok body => .ok ([SET, VALUE_FLAG] ++ lenB ++ body)
      | .error e => .error e
  | .uuid u => .ok ([UUID, VALUE_FLAG] ++ u.bytes)
  | .bytecode steps sources =>
    match writeUsizeAsI32 steps.len with
    | .error e => .error e
    | .ok stepLenB =>
      match serInstructionItems steps with
      | .error e => .error e
      | .ok stepBody =>
        match writeUsizeAsI32 sources.len with
        | .error e => .error e
        | .ok srcLenB =>
          match serInstructionItems sources with
          | .ok srcBody =>
            .ok ([BYTECODE, VALUE_FLAG] ++ stepLenB ++ stepBody ++ srcLenB ++ srcBody)
          | .error e => .error e
  | .null => .ok [UNSPECIFIED_NULL_OBEJECT, VALUE_NULL_FLAG]
  | .scope sc =>
    match serFqString (ascii (match sc with | .global => "global" | .local => "local")) with
    | .ok b => .ok ([SCOPE, VALUE_FLAG] ++ b)
    | .error e => .error e
  | _ => .error .panic
termination_by structural v => v

/-- Concatenated fully-qualified encodings of list elements. -/
def serListItems : GVList → Except GremlinError (List Nat)
  | .nil => .ok []
  | .cons hd tl =>
    match hd.toBeBytes with
    | .error e => .error e
    | .ok hb =>
      match serListItems tl with
      | .ok tb => .ok (hb ++ tb)
      | .error e => .error e
termination_by structural xs => xs

/-- Concatenated fully-qualified key/value encodings of map entries. -/
def serMapPairs : GKVList → Except GremlinError (List Nat)
  | .nil => .ok []
  | .cons k v tl =>
    match k.toBeBytes with
    | .error e => .error e
    | .ok kb =>
      match v.toBeBytes with
      | .error e => .error e
      | .ok vb =>
        match serMapPairs tl with
        | .ok tb => .ok (kb ++ vb ++ tb)
        | .error e => .error e
termination_by structural kvs => kvs

/-- Body of the `write_instructions` helper of the `Bytecode` arm (the
instruction count written before it is inlined into the `Bytecode` arm
above): per instruction the operator string, the argument count and the
fully-qualified arguments. -/
def serInstructionItems : GInstrList → Except GremlinError (List Nat)
  | .nil => .ok []
  | .cons operator args tl =>
    match strToBeBytes operator with
    | .error e => .error e
    | .ok opB =>
      match writeUsizeAsI32 args.len with
      | .error e => .error e
      | .ok argLenB =>
        match serListItems args with
        | .error e => .error e
        | .ok argB =>
          match serInstructionItems tl with
          | .ok tb => .ok (opB ++ argLenB ++ argB ++ tb)
          | .error e => .error e
termination_by structural l => l
end

/-! ## GraphBinary V1 deserialization -/

/-- Rust `impl GraphBinaryV1Deser for i32`: take 4 bytes, fail if fewer. -/
def decodeI32 (bs : List Nat) : Except GremlinError (Int × List Nat) :=
  if (bs.take 4).length = 4 then .ok (intFromTwos 4 (bytesToNatBE (bs.take 4)), bs.drop 4)
  else .error (.cast (.lit "Invalid bytes into i32"))

/-- Rust `impl GraphBinaryV1Deser for i64`: take 8 bytes, fail if fewer. -/
def decodeI64 (bs : List Nat) : Except GremlinError (Int × List Nat) :=
  if (bs.take 8).length = 8 then .ok (intFromTwos 8 (bytesToNatBE (bs.take 8)), bs.drop 8)
  else .error (.cast (.lit "Invalid bytes into i64"))

/-- Rust `impl GraphBinaryV1Deser for f32`, kept as the 4-byte bit pattern. -/
def decodeF32 (bs : List Nat) : Except GremlinError (Nat × List Nat) :=
  if (bs.take 4).length = 4 then .ok (bytesToNatBE (bs.take 4), bs.drop 4)
  else .error (.cast (.lit "Invalid bytes into f32"))

/-- Rust `impl GraphBinaryV1Deser for f64`, kept as the 8-byte bit pattern. -/
def decodeF64 (bs : List Nat) : Except GremlinError (Nat × List Nat) :=
  if (bs.take 8).length = 8 then .ok (bytesToNatBE (bs.take 8), bs.drop 8)
  else .error (.cast (.lit "Invalid bytes into f64"))

/-- Rust `impl GraphBinaryV1Deser for Uuid`: take 16 bytes, fail if fewer. -/
def decodeUuid (bs : List Nat) : Except GremlinError (RUuid × List Nat) :=
  if (bs.take 16).length = 16 then .ok (⟨bs.take 16⟩, bs.drop 16)
  else .error (.cast (.lit "Invalid bytes into Uuid"))

/-- Rust `impl GraphBinaryV1Deser for String`: a 4-byte length (its read
error is remapped), a non-negativity/usize check, exactly `length` bytes,
then UTF-8 validation. -/
def decodeString (bs : List Nat) : Except GremlinError (List Nat × List Nat) :=
  match decodeI32 bs with
  | .error _ => .error (.cast (.lit "Invalid bytes for String length"))
  | .ok (len, r) =>
    if len < 0 then .error (.cast (.lit "String length did not fit into usize"))
    else
      if (r.take len.toNat).length < len.toNat then
        .error (.cast (.lit "Missing bytes for String value"))
      else
        if utf8Valid (r.take len.toNat) then .ok (r.take len.toNat, r.drop len.toNat)
        else .error (.cast (.lit "Invalid bytes for String value"))

/-- The default `from_be_bytes_nullable`: one flag byte — `0x00` reads a
value, `0x01` is null, anything else (or end of input) is a Cast error
carrying the formatted flag. -/
def decodeNullable {α : Type} (dec : List Nat → Except GremlinError (α × List Nat))
    (bs : List Nat) : Except GremlinError (Option α × List Nat) :=
  match bs with
  | 0 :: rest =>
    match dec rest with
    | .ok (v, r) => .ok (some v, r)
    | .error e => .error e
  | 1 :: rest => .ok (none, rest)
  | b :: _ => .error (.cast (.nullableFlag (some b)))
  | [] => .error (.cast (.nullableFlag none))

/-- The element loop of `impl GraphBinaryV1Deser for Vec<GValue>`: `count`
fully-qualified values in sequence. -/
def decodeItems (dec : List Nat → Except GremlinError (GValue × List Nat)) :
    Nat → List Nat → Except GremlinError (GVList × List Nat)
  | 0, bs => .ok (.nil, bs)
  | n + 1, bs =>
    match dec bs with
    | .error e => .error e
    | .ok (v, r) =>
      match decodeItems dec n r with
      | .ok (vs, r2) => .ok (.cons v vs, r2)
      | .error e => .error e

/-- Rust `impl GraphBinaryV1Deser for Vec<GValue>`: a 4-byte length (negative
lengths fail the usize conversion), then that many fully-qualified values. -/
def decodeVec (dec : List Nat → Except GremlinError (GValue × List Nat))
    (bs : List Nat) : Except GremlinError (GVList × List Nat) :=
  match decodeI32 bs with
  | .error e => .error e
  | .ok (len, r) =>
    if len < 0 then .error (.cast (.lit "list length exceeds usize"))
    else decodeItems dec len.toNat r

/-- Rust `HashMap::insert`: replace the value of an existing key, otherwise
append the new entry. -/
def GKVList.insert (k : GKey) (v : GValue) : GKVList → GKVList
  | .nil => .cons k v .nil
  | .cons k0 v0 tl => if k0 = k then .cons k0 v tl else .cons k0 v0 (tl.insert k v)

/-- The entry loop of `impl GraphBinaryV1Deser for HashMap<GKey, GValue>`:
each entry is a fully-qualified value converted to a key via
`GKey::from_gvalue` (failures remapped to "Invalid GKey bytes") followed by
a fully-qualified value, inserted in order. -/
def decodePairs (dec : List Nat → Except GremlinError (GValue × List Nat)) :
    Nat → GKVList → List Nat → Except GremlinError (GKVList × List Nat)
  | 0, acc, bs => .ok (acc, bs)
  | n + 1, acc, bs =>
    match dec bs with
    | .error e => .error e
    | .ok (kv, r) =>
      match GKey.fromGValue kv with
      | .error _ => .error (.cast (.lit "Invalid GKey bytes"))
      | .ok k =>
        match dec r with
        | .error e => .error e
        | .ok (v, r2) => decodePairs dec n (acc.insert k v) r2

/-- Rust `impl GraphBinaryV1Deser for HashMap<GKey, GValue>`: a 4-byte
length, then that many key/value entries (`for _ in 0..len` iterates zero
times on a negative length). -/
def decodeMap (dec : List Nat → Except GremlinError (GValue × List Nat))
    (bs : List Nat) : Except GremlinError (GKVList × List Nat) :=
  match decodeI32 bs with
  | .error e => .error e
  | .ok (len, r) => decodePairs dec len.toNat .nil r

/-- Rust `impl GraphBinaryV1Deser for Traverser`: two sequential reads
(`Traverser::new` takes the bulk and the wrapped value; its definition is
not among the reviewed sources, and the bulk is read as a bare `i64`). -/
def decodeTraverser (dec : List Nat → Except GremlinError (GValue × List Nat))
    (bs : List Nat) : Except GremlinError (GValue × List Nat) :=
  match decodeI64 bs with
  | .error e => .error e
  | .ok (bulk, r) =>
    match dec r with
    | .error e => .error e
    | .ok (v, r2) => .ok (.traverser bulk v, r2)

/-- Rust `impl GraphBinaryV1Deser for GValue`, with an explicit nesting-depth
fuel so the recursion is structural.  Fuel `0` is modelled as a panic; it is
unreachable from `GValue.fromBeBytes`, which supplies more fuel than the
input has bytes while every nesting level consumes at least one byte.  Type
codes `0x0D`/`0x0E`/`0x0F` are the source's `todo!()` arms and the final
catch-all is `other => unimplemented!("TODO ...")` — both panic; note the
dedicated null code `0xFE` has no arm and falls into the catch-all. -/
def GValue.fromBeBytesF : Nat → List Nat → Except GremlinError (GValue × List Nat)
  | 0, _ => .error .panic
  | fuel + 1, bs =>
    match bs with
    | [] => .error (.cast (.lit "Invalid bytes no data code byte"))
    | code :: rest =>
      match code with
      | 0x01 =>
        match decodeNullable decodeI32 rest with
        | .ok (some v, r) => .ok (.int32 v, r)
        | .ok (none, r) => .ok (.null, r)
        | .error e => .error e
      | 0x02 =>
        match decodeNullable decodeI64 rest with
        | .ok (some v, r) => .ok (.int64 v, r)
        | .ok (none, r) => .ok (.null, r)
        | .error e => .error e
      | 0x03 =>
        match decodeNullable decodeString rest with
        | .ok (some s, r) => .ok (.string s, r)
        | .ok (none, r) => .ok (.null, r)
        | .error e => .error e
      | 0x04 =>
        match decodeNullable decodeI64 rest with
        | .ok (some m, r) =>
          if dateInRange m then .ok (.date ⟨m, 0⟩, r)
          else .error (.cast (.lit "Invalid timestamp millis"))
        | .ok (none, r) => .ok (.null, r)
        | .error e => .error e
      | 0x07 =>
        match decodeNullable decodeF64 rest with
        | .ok (some bits, r) => .ok (.double bits, r)
        | .ok (none, r) => .ok (.null, r)
        | .error e => .error e
      | 0x08 =>
        match decodeNullable decodeF32 rest with
        | .ok (some bits, r) => .ok (.float bits, r)
        | .ok (none, r) => .ok (.null, r)
        | .error e => .error e
      | 0x09 =>
        match decodeNullable (decodeVec (GValue.fromBeBytesF fuel)) rest with
        | .ok (some xs, r) => .ok (.list xs, r)
        | .ok (none, r) => .ok (.null, r)
        | .error e => .error e
      | 0x0A =>
        match decodeNullable (decodeMap (GValue.fromBeBytesF fuel)) rest with
        | .ok (some kvs, r) => .ok (.map kvs, r)
        | .ok (none, r) => .ok (.null, r)
        | .error e => .error e
      | 0x0B =>
        match decodeNullable (decodeVec (GValue.fromBeBytesF fuel)) rest with
        | .ok (some xs, r) => .ok (.set xs, r)
        | .ok (none, r) => .ok (.null, r)
        | .error e => .error e
      | 0x0C =>
        match decodeNullable decodeUuid rest with
        | .ok (some u, r) => .ok (.uuid u, r)
        | .ok (none, r) => .ok (.null, r)
        | .error e => .error e
      | 0x0D => .error .panic
      | 0x0E => .error .panic
      | 0x0F => .error .panic
      | 0x21 =>
        match decodeNullable (decodeTraverser (GValue.fromBeBytesF fuel)) rest with
        | .ok (some tv, r) => .ok (tv, r)
        | .ok (none, r) => .ok (.null, r)
        | .error e => .error e
      | _ => .error .panic

/-- Deserializing a `GValue` from a byte stream (fuel instantiated above the
input length, which bounds any achievable nesting depth). -/
def GValue.fromBeBytes (bs : List Nat) : Except GremlinError (GValue × List Nat) :=
  GValue.fromBeBytesF (bs.length + 1) bs

/-- The elements of a value list as a Lean list. -/
def GVList.toList : GVList → List GValue
  | .nil => []
  | .cons hd tl => hd :: tl.toList

/-! ## Protocol selector (`src/io/mod.rs`) -/

/-- The `IoProtocol` strategy enum. -/
inductive IoProtocol where
  | graphSONV2
  | graphSONV3
  | graphBinaryV1
  deriving DecidableEq

/-- `IoProtocol::content_type`. -/
def IoProtocol.contentType : IoProtocol → List Nat
  | .graphSONV2 => ascii "application/vnd.gremlin-v2.0+json"
  | .graphSONV3 => ascii "application/vnd.gremlin-v3.0+json"
  | .graphBinaryV1 => ascii "application/vnd.graphbinary-v1.0"

/-! ## GraphSON writer (`IoProtocol::write` / `write_graphson`)

`serde_json::Value` is modelled by `Json`.  Numbers keep their provenance
(`int` for integer literals, `f32bits`/`f64bits` for float payloads, again
as bit patterns); object fields are ordered — `serde_json`'s default map is
a `BTreeMap`, so fields appear in byte-lexicographic key order, and the
`json!` literals below are written in that (sorted) order. -/

mutual
/-- Model of `serde_json::Value`.  Arrays and objects use the spine types
`JList` / `JObj` so that equality is derivable and recursion structural. -/
inductive Json where
  | null
  | bool (b : Bool)
  | int (v : Int)
  | f32bits (bits : Nat)
  | f64bits (bits : Nat)
  | str (s : List Nat)
  | arr (xs : JList)
  | obj (fields : JObj)
  deriving DecidableEq

/-- Spine of a JSON array. -/
inductive JList where
  | nil
  | cons (hd : Json) (tl : JList)
  deriving DecidableEq

/-- Spine of a JSON object: ordered fields. -/
inductive JObj where
  | nil
  | cons (k : List Nat) (v : Json) (tl : JObj)
  deriving DecidableEq
end

/-- Byte-lexicographic order on strings (Rust `String`'s `Ord`, used by the
`BTreeMap` behind `serde_json::Map`). -/
def bytesLt : List Nat → List Nat → Bool
  | [], [] => false
  | [], _ :: _ => true
  | _ :: _, [] => false
  | a :: ak, b :: bk => if a < b then true else if b < a then false else bytesLt ak bk

/-- `serde_json::Map::insert` (`BTreeMap` semantics): replace the value of an
existing key, otherwise insert in sorted position. -/
def jsonObjInsert (k : List Nat) (v : Json) : JObj → JObj
  | .nil => .cons k v .nil
  | .cons k0 v0 tl =>
    if k = k0 then .cons k0 v tl
    else if bytesLt k k0 then .cons k v (.cons k0 v0 tl)
    else .cons k0 v0 (jsonObjInsert k v tl)

/-- Lower-case hex digit. -/
def hexDigit (n : Nat) : Nat := if n < 10 then 48 + n else 87 + (n - 10)

/-- The hyphenated lower-case rendering of a `Uuid` (`to_string`). -/
def uuidToString (u : RUuid) : List Nat :=
  let h := (u.bytes.map (fun b => [hexDigit (b / 16 % 16), hexDigit (b % 16)])).flatten
  h.take 8 ++ [45] ++ (h.drop 8).take 4 ++ [45] ++ (h.drop 12).take 4 ++ [45] ++
    (h.drop 16).take 4 ++ [45] ++ h.drop 20

/-- A tagged GraphSON object `{"@type": <tag>, "@value": <payload>}`. -/
def gsTagged (tag : String) (payload : Json) : Json :=
  .obj (.cons (ascii "@type") (.str (ascii tag)) (.cons (ascii "@value") payload .nil))

/-- A two-field JSON object, fields in the given (sorted) order. -/
def jObj2 (k1 : String) (v1 : Json) (k2 : String) (v2 : Json) : JObj :=
  .cons (ascii k1) v1 (.cons (ascii k2) v2 .nil)

/-- A one-field JSON object. -/
def jObj1 (k1 : String) (v1 : Json) : JObj :=
  .cons (ascii k1) v1 .nil

mutual
/-- Rust `IoProtocol::write_graphson` (`src/io/mod.rs`), with the arms in
source order.  Recursive positions go through `self.write`, which for the
two GraphSON protocols is `write_graphson` again (and is never reached for
the binary protocol, whose `write` is a `todo!()`); the recursion here calls
`writeGraphson` directly.  The final `(_, _)` arm is the source's
`panic!("Type ... not supported.")`. -/
def writeGraphson (proto : IoProtocol) : GValue → Except GremlinError Json
  | .double bits => .ok (gsTagged "g:Double" (.f64bits bits))
  | .float bits => .ok (gsTagged "g:Float" (.f32bits bits))
  | .int32 v => .ok (gsTagged "g:Int32" (.int v))
  | .int64 v => .ok (gsTagged "g:Int64" (.int v))
  | .string s => .ok (.str s)
  | .uuid u => .ok (gsTagged "g:UUID" (.str (uuidToString u)))
  | .date d => .ok (gsTagged "g:Date" (.int d.millis))
  | .list xs =>
    match proto with
    | .graphSONV2 =>
      match writeGraphsonList proto xs with
      | .ok elems => .ok (.arr elems)
      | .error e => .error e
    | .graphSONV3 =>
      match writeGraphsonList proto xs with
      | .ok elems => .ok (gsTagged "g:List" (.arr elems))
      | .error e => .error e
    | .graphBinaryV1 => .error .panic
  | .p operator pv =>
    match writeGraphson proto pv with
    | .ok pj =>
      .ok (gsTagged "g:P" (.obj (jObj2 "predicate" (.str operator) "value" pj)))
    | .error e => .error e
  | .bytecode steps sources =>
    match writeGraphsonInstructions proto steps with
    | .error e => .error e
    | .ok stepJs =>
      match writeGraphsonInstructions proto sources with
      | .ok sourceJs =>
        .ok (gsTagged "g:Bytecode"
          (.obj (jObj2 "source" (.arr sourceJs) "step" (.arr stepJs))))
      | .error e => .error e
  | .vertex id =>
    match writeGraphson proto id with
    | .ok idJ => .ok (gsTagged "g:Vertex" (.obj (jObj1 "id" idJ)))
    | .error e => .error e
  | .map kvs =>
    match proto with
    | .graphSONV2 =>
      match writeGraphsonMapV2 proto kvs .nil with
      | .ok fields => .ok (.obj fields)
      | .error e => .error e
    | .graphSONV3 =>
      match writeGraphsonMapV3 proto kvs with
      | .ok flat => .ok (gsTagged "g:Map" (.arr flat))
      | .error e => .error e
    | .graphBinaryV1 => .error .panic
  | .t tv =>
    .ok (gsTagged "g:T" (.str (ascii (match tv with
      | .id => "id" | .key => "key" | .label => "label" | .value => "value"))))
  | .scope sc =>
    .ok (gsTagged "g:Scope" (.str (ascii (match sc with
      | .global => "global" | .local => "local"))))
  | .order o =>
    .ok (gsTagged "g:Order" (.str (ascii (match o with
      | .asc => "asc" | .desc => "desc" | .shuffle => "shuffle"))))
  | .bool b => .ok (.bool b)
  | .textP operator pv =>
    match writeGraphson proto pv with
    | .ok pj =>
      .ok (gsTagged "g:TextP" (.obj (jObj2 "predicate" (.str operator) "value" pj)))
    | .error e => .error e
  | .pop repr => .ok (gsTagged "g:Pop" (.str repr))
  | .cardinality c =>
    .ok (gsTagged "g:Cardinality" (.str (ascii (match c with
      | .list => "list" | .single => "single" | .set => "set"))))
  | .merge m =>
    .ok (gsTagged "g:Merge" (.str (ascii (match m with
      | .onCreate => "onCreate" | .onMatch => "onMatch" | .outV => "outV" | .inV => "inV"))))
  | .direction d =>
    .ok (gsTagged "g:Direction" (.str (ascii (match d with
      | .out | .from => "OUT" | .in_dir | .to => "IN"))))
  | .column c =>
    .ok (gsTagged "g:Column" (.str (ascii (match c with
      | .keys => "keys" | .values => "values"))))
  | _ => .error .panic
termination_by structural v => v

/-- Elements of a list, each written recursively (`d.iter().map(|e| self.write(e))`). -/
def writeGraphsonList (proto : IoProtocol) : GVList → Except GremlinError JList
  | .nil => .ok .nil
  | .cons hd tl =>
    match writeGraphson proto hd with
    | .error e => .error e
    | .ok hj =>
      match writeGraphsonList proto tl with
      | .ok tj => .ok (.cons hj tj)
      | .error e => .error e
termination_by structural xs => xs

/-- The v2 map arm: each key is written (through its `GValue` conversion) and
must come out as a JSON string, otherwise `Generic("Non-string key value.")`;
entries are inserted into a `serde_json::Map`. -/
def writeGraphsonMapV2 (proto : IoProtocol) :
    GKVList → JObj → Except GremlinError JObj
  | .nil, acc => .ok acc
  | .cons k v tl, acc =>
    match writeGraphsonKey proto k with
    | .error e => .error e
    | .ok (.str ks) =>
      match writeGraphson proto v with
      | .error e => .error e
      | .ok vj => writeGraphsonMapV2 proto tl (jsonObjInsert ks vj acc)
    | .ok _ => .error (.generic "Non-string key value.")
termination_by structural kvs => kvs

/-- The v3 map arm: flattened key/value writes in iteration order. -/
def writeGraphsonMapV3 (proto : IoProtocol) : GKVList → Except GremlinError JList
  | .nil => .ok .nil
  | .cons k v tl =>
    match writeGraphsonKey proto k with
    | .error e => .error e
    | .ok kj =>
      match writeGraphson proto v with
      | .error e => .error e
      | .ok vj =>
        match writeGraphsonMapV3 proto tl with
        | .ok rest => .ok (.cons kj (.cons vj rest))
        | .error e => .error e
termination_by structural kvs => kvs

/-- A map key written as `self.write(&k.clone().into())`: the key is
converted to a `GValue` and written.  The conversion is inlined here (arms
as in `gkeyToGValue`) so the recursion stays structural. -/
def writeGraphsonKey (proto : IoProtocol) : GKey → Except GremlinError Json
  | .keyString s => .ok (.str s)
  | .keyToken tk => .ok (.str tk.value)
  | .keyVertex id =>
    match writeGraphson proto id with
    | .ok idJ => .ok (gsTagged "g:Vertex" (.obj (jObj1 "id" idJ)))
    | .error e => .error e
  | .keyEdge _ => .error .panic
  | .keyT tv =>
    .ok (gsTagged "g:T" (.str (ascii (match tv with
      | .id => "id" | .key => "key" | .label => "label" | .value => "value"))))
  | .keyDirection d =>
    .ok (gsTagged "g:Direction" (.str (ascii (match d with
      | .out | .from => "OUT" | .in_dir | .to => "IN"))))
termination_by structural k => k

/-- Bytecode step/source arrays: `[opName, arg...]` per instruction. -/
def writeGraphsonInstructions (proto : IoProtocol) : GInstrList → Except GremlinError JList
  | .nil => .ok .nil
  | .cons operator args tl =>
    match writeGraphsonList proto args with
    | .error e => .error e
    | .ok argJs =>
      match writeGraphsonInstructions proto tl with
      | .ok rest => .ok (.cons (.arr (.cons (.str operator) argJs)) rest)
      | .error e => .error e
termination_by structural l => l
end

/-- Rust `IoProtocol::write`: dispatch to `write_graphson` for the two
GraphSON protocols; the GraphBinary arm is a `todo!()`. -/
def IoProtocol.write (proto : IoProtocol) (v : GValue) : Except GremlinError Json :=
  match proto with
  | .graphSONV2 | .graphSONV3 => writeGraphson proto v
  | .graphBinaryV1 => .error .panic

/-! ## Conversions from `GValue` to native scalars
(`impl TryFrom<GValue> for ...`, `src/structure/value.rs`)

Each conversion matches its own variant; `String`, `i32`, `i64`, `f32` and
`f64` additionally route a `List` through `from_list`, which unwraps a
one-element list by converting the element (recursively) and reports
`"Cannot cast a List to String"` for any other length, whatever the target;
`Uuid`, `Date` and `bool` have no `List` arm.  The mismatch arm carries
`format!("Cannot cast {:?} to <target>", value)`; note the `i64` conversion
names `i32` as its target (the message in the source does). -/

/-- `TryFrom<GValue> for String`. -/
def tryFromString : GValue → Except GremlinError (List Nat)
  | .string s => .ok s
  | .list (.cons x .nil) => tryFromString x
  | .list _ => .error (.cast (.lit "Cannot cast a List to String"))
  | v => .error (.cast (.fmt v "String"))

/-- `TryFrom<GValue> for i32`. -/
def tryFromI32 : GValue → Except GremlinError Int
  | .int32 n => .ok n
  | .list (.cons x .nil) => tryFromI32 x
  | .list _ => .error (.cast (.lit "Cannot cast a List to String"))
  | v => .error (.cast (.fmt v "i32"))

/-- `TryFrom<GValue> for i64` (its mismatch message names `i32`). -/
def tryFromI64 : GValue → Except GremlinError Int
  | .int64 n => .ok n
  | .list (.cons x .nil) => tryFromI64 x
  | .list _ => .error (.cast (.lit "Cannot cast a List to String"))
  | v => .error (.cast (.fmt v "i32"))

/-- `TryFrom<GValue> for f32` (bit-pattern payload). -/
def tryFromF32 : GValue → Except GremlinError Nat
  | .float bits => .ok bits
  | .list (.cons x .nil) => tryFromF32 x
  | .list _ => .error (.cast (.lit "Cannot cast a List to String"))
  | v => .error (.cast (.fmt v "f32"))

/-- `TryFrom<GValue> for f64` (bit-pattern payload). -/
def tryFromF64 : GValue → Except GremlinError Nat
  | .double bits => .ok bits
  | .list (.cons x .nil) => tryFromF64 x
  | .list _ => .error (.cast (.lit "Cannot cast a List to String"))
  | v => .error (.cast (.fmt v "f64"))

/-- `TryFrom<GValue> for Uuid` (no `List` arm). -/
def tryFromUuid : GValue → Except GremlinError RUuid
  | .uuid u => .ok u
  | v => .error (.cast (.fmt v "Uuid"))

/-- `TryFrom<GValue> for Date` (no `List` arm). -/
def tryFromDate : GValue → Except GremlinError RDate
  | .date d => .ok d
  | v => .error (.cast (.fmt v "DateTime<Utc>"))

/-- `TryFrom<GValue> for bool` (no `List` arm). -/
def tryFromBool : GValue → Except GremlinError Bool
  | .bool b => .ok b
  | v => .error (.cast (.fmt v "bool"))

/-! ## Message framing (`src/io/graph_binary_v1.rs` RequestMessage,
`src/io/mod.rs` build_eval_message) -/

/-- Argument-map entries of a request, written as the `RequestMessage`
serializer writes them: per entry the key is turned into a `GValue`
(`GValue::from(k)`, a fully-qualified string) and then the fully-qualified
value follows. -/
def serRequestArgs : List (List Nat × GValue) → Except GremlinError (List Nat)
  | [] => .ok []
  | (k, v) :: tl =>
    match GValue.toBeBytes (.string k) with
    | .error e => .error e
    | .ok kb =>
      match v.toBeBytes with
      | .error e => .error e
      | .ok vb =>
        match serRequestArgs tl with
        | .ok tb => .ok (kb ++ vb ++ tb)
        | .error e => .error e

/-- The one-byte-length content-type prefix shared by the binary builders. -/
def contentTypeHeader : List Nat :=
  IoProtocol.graphBinaryV1.contentType.length :: IoProtocol.graphBinaryV1.contentType

/-- Rust `impl GraphBinaryV1Ser for RequestMessage`: content-type header,
version byte, 16 raw request-id bytes, length-prefixed op and processor
strings, 4-byte `i32` argument count, then each argument as a
fully-qualified key and value.  The argument order models one `HashMap`
iteration order. -/
def requestMessageToBeBytes (requestId : RUuid) (op processor : List Nat)
    (args : List (List Nat × GValue)) : Except GremlinError (List Nat) :=
  match strToBeBytes op with
  | .error e => .error e
  | .ok opB =>
    match strToBeBytes processor with
    | .error e => .error e
    | .ok procB =>
      if args.length < 2147483648 then
        match serRequestArgs args with
        | .error e => .error e
        | .ok pairsB =>
          .ok (contentTypeHeader ++ [VERSION_BYTE] ++ requestId.bytes ++ opB ++ procB ++
            int32ToBeBytes (args.length : Int) ++ pairsB)
      else .error (.cast (.lit "Args exceeds i32 length limit"))

/-- Key/value pairs of a string-keyed map as a `GKVList`. -/
def kvListOfPairs : List (List Nat × GValue) → GKVList
  | [] => .nil
  | (k, v) :: tl => .cons (.keyString k) v (kvListOfPairs tl)

/-- The GraphBinary branch of `IoProtocol::build_eval_message`
(`src/io/mod.rs`): content-type header, version byte, raw request-id bytes,
the op `"eval"` and the default (empty) processor as length-prefixed
strings, then the argument map serialized as a fully-qualified `GValue::Map`
(`(&GValue::from(args)).to_be_bytes`), i.e. with the map type code `0x0A`
and value flag `0x00` preceding the 4-byte count.  The request id is drawn
from `Uuid::new_v4()`; it is a parameter here. -/
def buildEvalMessageBinary (requestId : RUuid) (args : List (List Nat × GValue)) :
    Except GremlinError (List Nat) :=
  match strToBeBytes (ascii "eval") with
  | .error e => .error e
  | .ok opB =>
    match strToBeBytes [] with
    | .error e => .error e
    | .ok procB =>
      match GValue.toBeBytes (.map (kvListOfPairs args)) with
      | .error e => .error e
      | .ok argsB =>
        .ok (contentTypeHeader ++ [VERSION_BYTE] ++ requestId.bytes ++ opB ++ procB ++ argsB)

/-- The request envelope layout exactly as the spec words it (the claimed
layout, for comparison): content-type length byte and string, version byte
`0x81`, 16 raw request-id bytes, length-prefixed op, length-prefixed
processor, 4-byte `i32` argument count, then the fully-qualified key/value
pairs. -/
def specRequestBytes (requestId : RUuid) (op processor : List Nat) (argCount : Int)
    (pairsB : List Nat) : List Nat :=
  contentTypeHeader ++ [VERSION_BYTE] ++ requestId.bytes ++
    int32ToBeBytes (op.length : Int) ++ op ++
    int32ToBeBytes (processor.length : Int) ++ processor ++
    int32ToBeBytes argCount ++ pairsB

/-! ## Client and pool models (`src/client.rs`, `src/pool.rs`) -/

/-- Credentials (`options.credentials`). -/
structure Credentials where
  username : List Nat
  password : List Nat
  deriving DecidableEq

/-- Response status as carried by `message.rs` (`ReponseStatus`, sic). -/
structure ReponseStatus where
  code : Int
  message : List Nat
  deriving DecidableEq

/-- A decoded response as the dispatch logic consumes it. -/
structure Response where
  requestId : RUuid
  data : Option GValue
  status : ReponseStatus
  deriving DecidableEq

/-- Standard-alphabet base64 with padding (the `base64::encode` used for the
SASL payload). -/
def base64Char (n : Nat) : Nat :=
  if n < 26 then 65 + n
  else if n < 52 then 97 + (n - 26)
  else if n < 62 then 48 + (n - 52)
  else if n = 62 then 43 else 47

/-- Base64-encode a byte sequence (4 output characters per 3 input bytes,
`=`-padded). -/
def base64Encode : List Nat → List Nat
  | [] => []
  | [a] => [base64Char (a / 4 % 64), base64Char (a % 4 * 16), 61, 61]
  | [a, b] => [base64Char (a / 4 % 64), base64Char (a % 4 * 16 + b / 16), base64Char (b % 16 * 4), 61]
  | a :: b :: c :: rest =>
    base64Char (a / 4 % 64) :: base64Char (a % 4 * 16 + b / 16) ::
      base64Char (b % 16 * 4 + c / 64) :: base64Char (c % 64) :: base64Encode rest

/-- The SASL payload `format!("\0{}\0{}", username, password)`. -/
def saslBytes (c : Credentials) : List Nat :=
  0 :: (c.username ++ 0 :: c.password)

/-- A request as handed to the serializer's message builder: the tuple of
arguments the reviewed call sites pass (`build_message(op, processor, args,
request_id)` in `pool.rs`; the builder itself is not among the reviewed
sources, so the model records what is sent rather than its bytes). -/
structure BuiltMessage where
  op : String
  processor : String
  args : List (List Nat × GValue)
  requestId : Option RUuid
  deriving DecidableEq

/-- The probe request of the health check: an `eval` of `g.inject(0)` with
the default processor and a fresh request id. -/
def probeMessage : BuiltMessage :=
  ⟨"eval", "", [(ascii "gremlin", .string (ascii "g.inject(0)")),
    (ascii "language", .string (ascii "gremlin-groovy"))], none⟩

/-- The authentication continuation request: op `authentication`, processor
`traversal`, the base64 SASL argument, and the request id of the 407
response it answers. -/
def authMessage (c : Credentials) (requestId : RUuid) : BuiltMessage :=
  ⟨"authentication", "traversal",
    [(ascii "sasl", .string (base64Encode (saslBytes c)))], some requestId⟩

/-- Rust `GremlinConnectionManager::is_valid` (`src/pool.rs`): send the
probe; on 200/206/204 the connection is valid; on 407 with credentials send
exactly one authentication request reusing the 407's request id and accept
200/206/204 and also 401 (the deliberate workaround), failing with a
`Request` error otherwise; on 407 without credentials or any other code,
fail with a `Request` error.  `recv1`/`recv2` are the outcomes of the two
`conn.recv()` + `read_response` rounds (transport sends are modelled as
succeeding); the second component lists the requests actually sent. -/
def poolIsValid (creds : Option Credentials)
    (recv1 recv2 : Except GremlinError Response) :
    Except GremlinError Unit × List BuiltMessage :=
  match recv1 with
  | .error e => (.error e, [probeMessage])
  | .ok r1 =>
    if r1.status.code = 200 ∨ r1.status.code = 206 then (.ok (), [probeMessage])
    else if r1.status.code = 204 then (.ok (), [probeMessage])
    else if r1.status.code = 407 then
      match creds with
      | some c =>
        match recv2 with
        | .error e => (.error e, [probeMessage, authMessage c r1.requestId])
        | .ok r2 =>
          if r2.status.code = 200 ∨ r2.status.code = 206 then
            (.ok (), [probeMessage, authMessage c r1.requestId])
          else if r2.status.code = 204 then
            (.ok (), [probeMessage, authMessage c r1.requestId])
          else if r2.status.code = 401 then
            (.ok (), [probeMessage, authMessage c r1.requestId])
          else
            (.error (.request r2.status.code r2.status.message),
              [probeMessage, authMessage c r1.requestId])
      | none => (.error (.request r1.status.code r1.status.message), [probeMessage])
    else (.error (.request r1.status.code r1.status.message), [probeMessage])

/-- A pooled connection, as far as `has_broken` observes it: the
transport-level broken flag. -/
structure Connection where
  isBroken : Bool
  deriving DecidableEq

/-- Rust `GremlinConnectionManager::has_broken`: returns `conn.is_broken()`. -/
def hasBroken (conn : Connection) : Bool := conn.isBroken

/-- Rust `impl From<GValue> for VecDeque<GValue>` (`value.rs`): a list or
set spills its elements, anything else becomes a one-element queue. -/
def gvalueToVecDeque : GValue → List GValue
  | .list xs => xs.toList
  | .set xs => xs.toList
  | v => [v]

/-- Outcome of `GremlinClient::read_response` on one decoded response. -/
inductive ClientRead where
  | done (results : List GValue)
  | failed (e : GremlinError)
  | panicAfterBuildingAuth (auth : BuiltMessage)
  deriving DecidableEq

/-- Rust `GremlinClient::read_response` (`src/client.rs`): 200/206 drain the
optional result data into a queue, 204 yields an empty queue, 407 with
credentials builds the authentication message (reusing the response's
request id) and then hits `todo!()` — the send and recursive re-read are
commented out, so the function panics without sending anything — and 407
without credentials or any other code fail with a `Request` error. -/
def clientReadResponse (creds : Option Credentials) (resp : Response) : ClientRead :=
  if resp.status.code = 200 ∨ resp.status.code = 206 then
    .done (match resp.data with
      | none => []
      | some v => gvalueToVecDeque v)
  else if resp.status.code = 204 then .done []
  else if resp.status.code = 407 then
    match creds with
    | some c => .panicAfterBuildingAuth (authMessage c resp.requestId)
    | none => .failed (.request resp.status.code resp.status.message)
  else .failed (.request resp.status.code resp.status.message)

/-- Outcome of a client call that never returns results in this snapshot. -/
inductive CallOutcome where
  | panicked
  | failed (e : GremlinError)
  deriving DecidableEq

/-- Rust `SessionedClient::close_session` (`src/client.rs`): with a session
present it takes the session (leaving `None`), serializes the close
arguments, builds the close message (GraphBinary is a `todo!()`), acquires a
connection and then hits `todo!()` — `send_message` is commented out, so no
close request is ever sent and the call panics; with no session it fails
with `Generic("No session to close")`.  Returns the outcome, the new
session state, and the number of close requests sent over the connection. -/
def closeSession (session : Option (List Nat)) (serializer : IoProtocol) :
    CallOutcome × Option (List Nat) × Nat :=
  match session with
  | some name =>
    match serializer.write (.map (.cons (.keyString (ascii "session")) (.string name) .nil)) with
    | .error .panic => (.panicked, none, 0)
    | .error e => (.failed e, none, 0)
    | .ok _ =>
      match serializer with
      | .graphBinaryV1 => (.panicked, none, 0)
      | _ => (.panicked, none, 0)
  | none => (.failed (.generic "No session to close"), none, 0)

/-- What `GremlinClient::execute` assembles and does. -/
structure ExecResult where
  args : List (List Nat × GValue)
  processor : String
  outcome : CallOutcome

/-- Rust `GremlinClient::execute` (`src/client.rs`): assembles the argument
map (script, language, aliases, bindings, and the session name only when a
session is present), chooses the `"session"` processor exactly when a
session is present, serializes the arguments (GraphBinary message building
is a `todo!()`), and then — the dispatch being commented out — hits the
final `todo!()`: in this snapshot every `execute` call that gets past
argument serialization panics rather than returning. -/
def clientExecute (session : Option (List Nat)) (aliasName : Option (List Nat))
    (serializer : IoProtocol) (script : List Nat)
    (params : List (List Nat × GValue)) : ExecResult :=
  let aliases : List (List Nat × GValue) :=
    match aliasName with
    | some a => [(ascii "g", .string a)]
    | none => []
  let baseArgs : List (List Nat × GValue) :=
    [(ascii "gremlin", .string script),
     (ascii "language", .string (ascii "gremlin-groovy")),
     (ascii "aliases", .map (kvListOfPairs aliases)),
     (ascii "bindings", .map (kvListOfPairs params))]
  let args : List (List Nat × GValue) :=
    baseArgs ++ (match session with
      | some name => [(ascii "session", .string name)]
      | none => [])
  let processor : String := match session with
    | some _ => "session"
    | none => ""
  match serializer.write (.map (kvListOfPairs args)) with
  | .error .panic => ⟨args, processor, .panicked⟩
  | .error e => ⟨args, processor, .failed e⟩
  | .ok _ => ⟨args, processor, .panicked⟩

/-! ## Byte-level lemmas -/

theorem natToBytesBE_length (w n : Nat) : (natToBytesBE w n).length = w := by
  induction w generalizing n with
  | zero => rfl
  | succ w ih => simp [natToBytesBE, ih]

theorem bytesToNatBE_append_single (a : List Nat) (b : Nat) :
    bytesToNatBE (a ++ [b]) = bytesToNatBE a * 256 + b := by
  simp [bytesToNatBE, List.foldl_append]

theorem bytesToNatBE_natToBytesBE (w n : Nat) :
    bytesToNatBE (natToBytesBE w n) = n % 256 ^ w := by
  induction w generalizing n with
  | zero => simp [natToBytesBE, bytesToNatBE, Nat.mod_one]
  | succ w ih =>
    rw [natToBytesBE, bytesToNatBE_append_single, ih]
    have h : (256 : Nat) ^ (w + 1) = 256 * 256 ^ w := by ring
    rw [h, Nat.mod_mul]
    ring

theorem take_append_of_length {α : Type} (a b : List α) (n : Nat) (h : a.length = n) :
    (a ++ b).take n = a := by
  subst h; exact List.take_left a b

theorem drop_append_of_length {α : Type} (a b : List α) (n : Nat) (h : a.length = n) :
    (a ++ b).drop n = b := by
  subst h; exact List.drop_left a b

theorem decodeI32_append (v : Int) (rest : List Nat)
    (h1 : -2147483648 ≤ v) (h2 : v < 2147483648) :
    decodeI32 (int32ToBeBytes v ++ rest) = .ok (v, rest) := by
  have hlen : (int32ToBeBytes v).length = 4 := natToBytesBE_length 4 _
  have ht := take_append_of_length (int32ToBeBytes v) rest 4 hlen
  have hd := drop_append_of_length (int32ToBeBytes v) rest 4 hlen
  unfold decodeI32
  rw [ht, hd, hlen, if_pos rfl]
  have hb : bytesToNatBE (int32ToBeBytes v) = (v % 4294967296).toNat := by
    rw [int32ToBeBytes, bytesToNatBE_natToBytesBE]
    have : (256 : Nat) ^ 4 = 4294967296 := by norm_num
    rw [this]
    omega
  rw [hb, intFromTwos]
  norm_num
  omega

theorem decodeI64_append (v : Int) (rest : List Nat)
    (h1 : -9223372036854775808 ≤ v) (h2 : v < 9223372036854775808) :
    decodeI64 (int64ToBeBytes v ++ rest) = .ok (v, rest) := by
  have hlen : (int64ToBeBytes v).length = 8 := natToBytesBE_length 8 _
  have ht := take_append_of_length (int64ToBeBytes v) rest 8 hlen
  have hd := drop_append_of_length (int64ToBeBytes v) rest 8 hlen
  unfold decodeI64
  rw [ht, hd, hlen, if_pos rfl]
  have hb : bytesToNatBE (int64ToBeBytes v) = (v % 18446744073709551616).toNat := by
    rw [int64ToBeBytes, bytesToNatBE_natToBytesBE]
    have : (256 : Nat) ^ 8 = 18446744073709551616 := by norm_num
    rw [this]
    omega
  rw [hb, intFromTwos]
  norm_num
  omega

theorem decodeF32_append (bits : Nat) (rest : List Nat) (h : bits < 4294967296) :
    decodeF32 (natToBytesBE 4 bits ++ rest) = .ok (bits, rest) := by
  have hlen : (natToBytesBE 4 bits).length = 4 := natToBytesBE_length 4 _
  have ht := take_append_of_length (natToBytesBE 4 bits) rest 4 hlen
  have hd := drop_append_of_length (natToBytesBE 4 bits) rest 4 hlen
  unfold decodeF32
  rw [ht, hd, hlen, if_pos rfl, bytesToNatBE_natToBytesBE]
  have h4 : (256 : Nat) ^ 4 = 4294967296 := by norm_num
  rw [h4, Nat.mod_eq_of_lt h]

theorem decodeF64_append (bits : Nat) (rest : List Nat) (h : bits < 18446744073709551616) :
    decodeF64 (natToBytesBE 8 bits ++ rest) = .ok (bits, rest) := by
  have hlen : (natToBytesBE 8 bits).length = 8 := natToBytesBE_length 8 _
  have ht := take_append_of_length (natToBytesBE 8 bits) rest 8 hlen
  have hd := drop_append_of_length (natToBytesBE 8 bits) rest 8 hlen
  unfold decodeF64
  rw [ht, hd, hlen, if_pos rfl, bytesToNatBE_natToBytesBE]
  have h8 : (256 : Nat) ^ 8 = 18446744073709551616 := by norm_num
  rw [h8, Nat.mod_eq_of_lt h]

theorem decodeUuid_append (bytes rest : List Nat) (h : bytes.length = 16) :
    decodeUuid (bytes ++ rest) = .ok (⟨bytes⟩, rest) := by
  have ht := take_append_of_length bytes rest 16 h
  have hd := drop_append_of_length bytes rest 16 h
  unfold decodeUuid
  rw [ht, hd, h, if_pos rfl]

theorem decodeString_append (s rest : List Nat) (hu : utf8Valid s = true)
    (hl : s.length < 2147483648) :
    decodeString ((int32ToBeBytes (s.length : Int) ++ s) ++ rest) = .ok (s, rest) := by
  unfold decodeString
  rw [List.append_assoc,
    decodeI32_append (s.length : Int) (s ++ rest) (by omega) (by exact_mod_cast hl)]
  have hneg : ¬ ((s.length : Int) < 0) := by omega
  have htn : ((s.length : Int)).toNat = s.length := by omega
  have ht := take_append_of_length s rest s.length rfl
  have hd := drop_append_of_length s rest s.length rfl
  simp [hneg, htn, ht, hd, hu]

/-! ## The binary-codec round-trip fragment

`c1Supported` carves out the `GValue` fragment named by the round-trip
claim — Int32, Int64, String, Date, Double, Float, List, Set, Map with
string keys, Uuid — together with the representation invariants of the Rust
types involved: machine-integer ranges, float bit-pattern widths, UTF-8
string contents with `i32`-bounded lengths, 16-byte UUIDs, dates in the
`chrono` range and with no sub-millisecond remainder, `i32`-bounded
collection lengths, and pairwise-distinct map keys (a `HashMap` cannot hold
duplicates). -/

/-- Whether a key differs from every key of the list. -/
def keyNotIn (k : GKey) : GKVList → Bool
  | .nil => true
  | .cons k0 _ tl => !(decide (k0 = k)) && keyNotIn k tl

/-- Pairwise-distinct keys. -/
def distinctKeys : GKVList → Bool
  | .nil => true
  | .cons k _ tl => keyNotIn k tl && distinctKeys tl

/-- Every key of the first list is absent from the second. -/
def keysFreshIn : GKVList → GKVList → Bool
  | .nil, _ => true
  | .cons k _ tl, acc => keyNotIn k acc && keysFreshIn tl acc

/-- Appending key/value lists. -/
def GKVList.append : GKVList → GKVList → GKVList
  | .nil, ys => ys
  | .cons k v tl, ys => .cons k v (tl.append ys)

mutual
/-- The round-trip fragment of the codec claim (see section header). -/
def c1Supported : GValue → Bool
  | .int32 v => decide (-2147483648 ≤ v) && decide (v < 2147483648)
  | .int64 v => decide (-9223372036854775808 ≤ v) && decide (v < 9223372036854775808)
  | .string s => utf8Valid s && decide (s.length < 2147483648)
  | .date d => dateInRange d.millis && decide (d.subNanos = 0)
  | .double bits => decide (bits < 18446744073709551616)
  | .float bits => decide (bits < 4294967296)
  | .list xs => c1SupportedList xs && decide (xs.len < 2147483648)
  | .set xs => c1SupportedList xs && decide (xs.len < 2147483648)
  | .map kvs => c1SupportedMap kvs && distinctKeys kvs && decide (kvs.len < 2147483648)
  | .uuid u => decide (u.bytes.length = 16)
  | _ => false
termination_by structural v => v

/-- All elements in the round-trip fragment. -/
def c1SupportedList : GVList → Bool
  | .nil => true
  | .cons hd tl => c1Supported hd && c1SupportedList tl
termination_by structural xs => xs

/-- All keys are well-formed strings and all values in the fragment. -/
def c1SupportedMap : GKVList → Bool
  | .nil => true
  | .cons k v tl =>
    (match k with
     | .keyString s => utf8Valid s && decide (s.length < 2147483648)
     | _ => false) && c1Supported v && c1SupportedMap tl
termination_by structural kvs => kvs
end

theorem keyNotIn_append : ∀ (k : GKey) (a b : GKVList),
    keyNotIn k (a.append b) = (keyNotIn k a && keyNotIn k b)
  | k, .nil, b => by simp [GKVList.append, keyNotIn]
  | k, .cons k0 v0 tl, b => by
    simp [GKVList.append, keyNotIn, keyNotIn_append k tl b, Bool.and_assoc]

theorem keysFreshIn_append : ∀ (kvs a b : GKVList),
    keysFreshIn kvs (a.append b) = (keysFreshIn kvs a && keysFreshIn kvs b)
  | .nil, _, _ => by simp [keysFreshIn]
  | .cons k v tl, a, b => by
    simp only [keysFreshIn, keyNotIn_append, keysFreshIn_append tl a b]
    simp [Bool.and_assoc, Bool.and_comm, Bool.and_left_comm]

theorem keysFreshIn_single_of_keyNotIn : ∀ (k : GKey) (v : GValue) (kvs : GKVList),
    keyNotIn k kvs = true → keysFreshIn kvs (.cons k v .nil) = true
  | _, _, .nil, _ => rfl
  | k, v, .cons k0 v0 tl, h => by
    simp only [keyNotIn, Bool.and_eq_true] at h
    have h1 : ¬ (k0 = k) := by have := h.1; simpa using this
    have hsym : decide (k = k0) = false := by
      simp only [decide_eq_false_iff_not]
      exact fun hk => h1 hk.symm
    simp [keysFreshIn, keyNotIn, hsym, keysFreshIn_single_of_keyNotIn k v tl h.2]

theorem insert_of_keyNotIn : ∀ (k : GKey) (v : GValue) (acc : GKVList),
    keyNotIn k acc = true → acc.insert k v = acc.append (.cons k v .nil)
  | _, _, .nil, _ => rfl
  | k, v, .cons k0 v0 tl, h => by
    simp only [keyNotIn, Bool.and_eq_true] at h
    have h1 : ¬ (k0 = k) := by have := h.1; simpa using this
    simp only [GKVList.insert, GKVList.append]
    rw [if_neg h1, insert_of_keyNotIn k v tl h.2]

theorem keysFreshIn_nil : ∀ (kvs : GKVList), keysFreshIn kvs .nil = true
  | .nil => rfl
  | .cons _ _ tl => by simp [keysFreshIn, keyNotIn, keysFreshIn_nil tl]

theorem GKVList.append_assoc : ∀ (a b c : GKVList),
    (a.append b).append c = a.append (b.append c)
  | .nil, _, _ => rfl
  | .cons k v tl, b, c => by simp [GKVList.append, GKVList.append_assoc tl b c]

/-! ## One-step unfolding lemmas for the decoder -/

theorem decodeNullable_zero {α : Type} (dec : List Nat → Except GremlinError (α × List Nat))
    (bs : List Nat) :
    decodeNullable dec (0 :: bs)
      = (match dec bs with
         | .ok (v, r) => .ok (some v, r)
         | .error e => .error e) := rfl

theorem fromBeBytesF_int32 (fuel : Nat) (bs : List Nat) :
    GValue.fromBeBytesF (fuel + 1) (1 :: bs)
      = (match decodeNullable decodeI32 bs with
         | .ok (some v, r) => .ok (.int32 v, r)
         | .ok (none, r) => .ok (.null, r)
         | .error e => .error e) := rfl

theorem fromBeBytesF_int64 (fuel : Nat) (bs : List Nat) :
    GValue.fromBeBytesF (fuel + 1) (2 :: bs)
      = (match decodeNullable decodeI64 bs with
         | .ok (some v, r) => .ok (.int64 v, r)
         | .ok (none, r) => .ok (.null, r)
         | .error e => .error e) := rfl

theorem fromBeBytesF_string (fuel : Nat) (bs : List Nat) :
    GValue.fromBeBytesF (fuel + 1) (3 :: bs)
      = (match decodeNullable decodeString bs with
         | .ok (some s, r) => .ok (.string s, r)
         | .ok (none, r) => .ok (.null, r)
         | .error e => .error e) := rfl

theorem fromBeBytesF_date (fuel : Nat) (bs : List Nat) :
    GValue.fromBeBytesF (fuel + 1) (4 :: bs)
      = (match decodeNullable decodeI64 bs with
         | .ok (some m, r) =>
           if dateInRange m then .ok (.date ⟨m, 0⟩, r)
           else .error (.cast (.lit "Invalid timestamp millis"))
         | .ok (none, r) => .ok (.null, r)
         | .error e => .error e) := rfl

theorem fromBeBytesF_double (fuel : Nat) (bs : List Nat) :
    GValue.fromBeBytesF (fuel + 1) (7 :: bs)
      = (match decodeNullable decodeF64 bs with
         | .ok (some bits, r) => .ok (.double bits, r)
         | .ok (none, r) => .ok (.null, r)
         | .error e => .error e) := rfl

theorem fromBeBytesF_float (fuel : Nat) (bs : List Nat) :
    GValue.fromBeBytesF (fuel + 1) (8 :: bs)
      = (match decodeNullable decodeF32 bs with
         | .ok (some bits, r) => .ok (.float bits, r)
         | .ok (none, r) => .ok (.null, r)
         | .error e => .error e) := rfl

theorem fromBeBytesF_list (fuel : Nat) (bs : List Nat) :
    GValue.fromBeBytesF (fuel + 1) (9 :: bs)
      = (match decodeNullable (decodeVec (GValue.fromBeBytesF fuel)) bs with
         | .ok (some xs, r) => .ok (.list xs, r)
         | .ok (none, r) => .ok (.null, r)
         | .error e => .error e) := rfl

theorem fromBeBytesF_map (fuel : Nat) (bs : List Nat) :
    GValue.fromBeBytesF (fuel + 1) (10 :: bs)
      = (match decodeNullable (decodeMap (GValue.fromBeBytesF fuel)) bs with
         | .ok (some kvs, r) => .ok (.map kvs, r)
         | .ok (none, r) => .ok (.null, r)
         | .error e => .error e) := rfl

theorem fromBeBytesF_set (fuel : Nat) (bs : List Nat) :
    GValue.fromBeBytesF (fuel + 1) (11 :: bs)
      = (match decodeNullable (decodeVec (GValue.fromBeBytesF fuel)) bs with
         | .ok (some xs, r) => .ok (.set xs, r)
         | .ok (none, r) => .ok (.null, r)
         | .error e => .error e) := rfl

theorem fromBeBytesF_uuid (fuel : Nat) (bs : List Nat) :
    GValue.fromBeBytesF (fuel + 1) (12 :: bs)
      = (match decodeNullable decodeUuid bs with
         | .ok (some u, r) => .ok (.uuid u, r)
         | .ok (none, r) => .ok (.null, r)
         | .error e => .error e) := rfl

/-- The fully-qualified string serialization, unfolded. -/
theorem serFqString_ok (s : List Nat) (hl : s.length < 2147483648) :
    serFqString s = .ok ([STRING, VALUE_FLAG] ++ (int32ToBeBytes (s.length : Int) ++ s)) := by
  simp [serFqString, strToBeBytes, hl]

/-- Decoding a fully-qualified string recovers it. -/
theorem fromBeBytesF_fqString (s rest : List Nat) (hu : utf8Valid s = true)
    (hl : s.length < 2147483648) (fuel : Nat) :
    GValue.fromBeBytesF (fuel + 1)
      (([STRING, VALUE_FLAG] ++ (int32ToBeBytes (s.length : Int) ++ s)) ++ rest)
      = .ok (.string s, rest) := by
  have hsplit : ([STRING, VALUE_FLAG] ++ (int32ToBeBytes (s.length : Int) ++ s)) ++ rest
      = 3 :: 0 :: ((int32ToBeBytes (s.length : Int) ++ s) ++ rest) := by
    simp [STRING, VALUE_FLAG]
  rw [hsplit, fromBeBytesF_string, decodeNullable_zero, decodeString_append s rest hu hl]

theorem GKVList.append_nil : ∀ (a : GKVList), a.append .nil = a
  | .nil => rfl
  | .cons k v tl => by simp [GKVList.append, GKVList.append_nil tl]

/-! ## The round-trip theorem for the binary codec -/

mutual
/-- Serializing any value of the round-trip fragment succeeds, and decoding
the produced bytes (before any continuation) returns the value and the
continuation, for any fuel above the byte count. -/
theorem serdeRoundV : ∀ (v : GValue), c1Supported v = true →
    ∃ out, v.toBeBytes = .ok out ∧
      ∀ fuel rest, out.length < fuel →
        GValue.fromBeBytesF fuel (out ++ rest) = .ok (v, rest)
  | .int32 n, h => by
    simp only [c1Supported, Bool.and_eq_true, decide_eq_true_eq] at h
    refine ⟨[1, 0] ++ int32ToBeBytes n, rfl, ?_⟩
    intro fuel rest hf
    cases fuel with
    | zero => exact absurd hf (Nat.not_lt_zero _)
    | succ f =>
      have hsplit : ([1, 0] ++ int32ToBeBytes n) ++ rest
          = 1 :: 0 :: (int32ToBeBytes n ++ rest) := by simp
      rw [hsplit, fromBeBytesF_int32, decodeNullable_zero, decodeI32_append n rest h.1 h.2]
  | .int64 n, h => by
    simp only [c1Supported, Bool.and_eq_true, decide_eq_true_eq] at h
    refine ⟨[2, 0] ++ int64ToBeBytes n, rfl, ?_⟩
    intro fuel rest hf
    cases fuel with
    | zero => exact absurd hf (Nat.not_lt_zero _)
    | succ f =>
      have hsplit : ([2, 0] ++ int64ToBeBytes n) ++ rest
          = 2 :: 0 :: (int64ToBeBytes n ++ rest) := by simp
      rw [hsplit, fromBeBytesF_int64, decodeNullable_zero, decodeI64_append n rest h.1 h.2]
  | .string s, h => by
    simp only [c1Supported, Bool.and_eq_true, decide_eq_true_eq] at h
    have hstr : strToBeBytes s = .ok (int32ToBeBytes (s.length : Int) ++ s) := by
      simp [strToBeBytes, h.2]
    refine ⟨[3, 0] ++ (int32ToBeBytes (s.length : Int) ++ s), ?_, ?_⟩
    · simp only [GValue.toBeBytes, hstr]
      rfl
    · intro fuel rest hf
      cases fuel with
      | zero => exact absurd hf (Nat.not_lt_zero _)
      | succ f => exact fromBeBytesF_fqString s rest h.1 h.2 f
  | .date d, h => by
    simp only [c1Supported, Bool.and_eq_true, decide_eq_true_eq] at h
    have hrange : dateMinMillis ≤ d.millis ∧ d.millis ≤ dateMaxMillis := by
      have := h.1
      simp only [dateInRange, Bool.and_eq_true, decide_eq_true_eq] at this
      exact this
    refine ⟨[4, 0] ++ int64ToBeBytes d.millis, rfl, ?_⟩
    intro fuel rest hf
    cases fuel with
    | zero => exact absurd hf (Nat.not_lt_zero _)
    | succ f =>
      have hsplit : ([4, 0] ++ int64ToBeBytes d.millis) ++ rest
          = 4 :: 0 :: (int64ToBeBytes d.millis ++ rest) := by simp
      have h1 : (-9223372036854775808 : Int) ≤ d.millis := by
        simp only [dateMinMillis] at hrange; omega
      have h2 : d.millis < 9223372036854775808 := by
        simp only [dateMaxMillis] at hrange; omega
      rw [hsplit, fromBeBytesF_date, decodeNullable_zero, decodeI64_append d.millis rest h1 h2]
      have hd : (⟨d.millis, 0⟩ : RDate) = d := by
        cases d with
        | mk m sn => simp_all
      simp [h.1, hd]
  | .double bits, h => by
    simp only [c1Supported, decide_eq_true_eq] at h
    refine ⟨[7, 0] ++ natToBytesBE 8 bits, rfl, ?_⟩
    intro fuel rest hf
    cases fuel with
    | zero => exact absurd hf (Nat.not_lt_zero _)
    | succ f =>
      have hsplit : ([7, 0] ++ natToBytesBE 8 bits) ++ rest
          = 7 :: 0 :: (natToBytesBE 8 bits ++ rest) := by simp
      rw [hsplit, fromBeBytesF_double, decodeNullable_zero, decodeF64_append bits rest h]
  | .float bits, h => by
    simp only [c1Supported, decide_eq_true_eq] at h
    refine ⟨[8, 0] ++ natToBytesBE 4 bits, rfl, ?_⟩
    intro fuel rest hf
    cases fuel with
    | zero => exact absurd hf (Nat.not_lt_zero _)
    | succ f =>
      have hsplit : ([8, 0] ++ natToBytesBE 4 bits) ++ rest
          = 8 :: 0 :: (natToBytesBE 4 bits ++ rest) := by simp
      rw [hsplit, fromBeBytesF_float, decodeNullable_zero, decodeF32_append bits rest h]
  | .uuid u, h => by
    simp only [c1Supported, decide_eq_true_eq] at h
    refine ⟨[12, 0] ++ u.bytes, rfl, ?_⟩
    intro fuel rest hf
    cases fuel with
    | zero => exact absurd hf (Nat.not_lt_zero _)
    | succ f =>
      have hsplit : ([12, 0] ++ u.bytes) ++ rest = 12 :: 0 :: (u.bytes ++ rest) := by simp
      rw [hsplit, fromBeBytesF_uuid, decodeNullable_zero, decodeUuid_append u.bytes rest h]
  | .list xs, h => by
    simp only [c1Supported, Bool.and_eq_true, decide_eq_true_eq] at h
    obtain ⟨body, hser, hdec⟩ := serdeRoundL xs h.1
    have hw : writeUsizeAsI32 xs.len = .ok (int32ToBeBytes (xs.len : Int)) := by
      simp [writeUsizeAsI32, h.2]
    refine ⟨[9, 0] ++ (int32ToBeBytes (xs.len : Int) ++ body), ?_, ?_⟩
    · simp only [GValue.toBeBytes, hw, hser]
      simp [LIST, VALUE_FLAG]
    · intro fuel rest hf
      cases fuel with
      | zero => exact absurd hf (Nat.not_lt_zero _)
      | succ f =>
        have hsplit : ([9, 0] ++ (int32ToBeBytes (xs.len : Int) ++ body)) ++ rest
            = 9 :: 0 :: (int32ToBeBytes (xs.len : Int) ++ (body ++ rest)) := by simp
        have hlt : body.length < f := by
          have := natToBytesBE_length 4 ((xs.len : Int) % 4294967296).toNat
          simp only [List.length_append, List.length_cons, int32ToBeBytes] at hf ⊢
          omega
        have hneg : ¬ ((xs.len : Int) < 0) := by omega
        rw [hsplit, fromBeBytesF_list, decodeNullable_zero]
        simp only [decodeVec,
          decodeI32_append (xs.len : Int) (body ++ rest) (by omega) (by exact_mod_cast h.2)]
        rw [if_neg hneg]
        simp only [Int.toNat_natCast]
        rw [hdec f rest hlt]
  | .set xs, h => by
    simp only [c1Supported, Bool.and_eq_true, decide_eq_true_eq] at h
    obtain ⟨body, hser, hdec⟩ := serdeRoundL xs h.1
    have hw : writeUsizeAsI32 xs.len = .ok (int32ToBeBytes (xs.len : Int)) := by
      simp [writeUsizeAsI32, h.2]
    refine ⟨[11, 0] ++ (int32ToBeBytes (xs.len : Int) ++ body), ?_, ?_⟩
    · simp only [GValue.toBeBytes, hw, hser]
      simp [SET, VALUE_FLAG]
    · intro fuel rest hf
      cases fuel with
      | zero => exact absurd hf (Nat.not_lt_zero _)
      | succ f =>
        have hsplit : ([11, 0] ++ (int32ToBeBytes (xs.len : Int) ++ body)) ++ rest
            = 11 :: 0 :: (int32ToBeBytes (xs.len : Int) ++ (body ++ rest)) := by simp
        have hlt : body.length < f := by
          have := natToBytesBE_length 4 ((xs.len : Int) % 4294967296).toNat
          simp only [List.length_append, List.length_cons, int32ToBeBytes] at hf ⊢
          omega
        have hneg : ¬ ((xs.len : Int) < 0) := by omega
        rw [hsplit, fromBeBytesF_set, decodeNullable_zero]
        simp only [decodeVec,
          decodeI32_append (xs.len : Int) (body ++ rest) (by omega) (by exact_mod_cast h.2)]
        rw [if_neg hneg]
        simp only [Int.toNat_natCast]
        rw [hdec f rest hlt]
  | .map kvs, h => by
    simp only [c1Supported, Bool.and_eq_true, decide_eq_true_eq] at h
    obtain ⟨body, hser, hdec⟩ := serdeRoundM kvs h.1.1 h.1.2
    have hw : writeUsizeAsI32 kvs.len = .ok (int32ToBeBytes (kvs.len : Int)) := by
      simp [writeUsizeAsI32, h.2]
    refine ⟨[10, 0] ++ (int32ToBeBytes (kvs.len : Int) ++ body), ?_, ?_⟩
    · simp only [GValue.toBeBytes, hw, hser]
      simp [MAP, VALUE_FLAG]
    · intro fuel rest hf
      cases fuel with
      | zero => exact absurd hf (Nat.not_lt_zero _)
      | succ f =>
        have hsplit : ([10, 0] ++ (int32ToBeBytes (kvs.len : Int) ++ body)) ++ rest
            = 10 :: 0 :: (int32ToBeBytes (kvs.len : Int) ++ (body ++ rest)) := by simp
        have hlt : body.length < f := by
          have := natToBytesBE_length 4 ((kvs.len : Int) % 4294967296).toNat
          simp only [List.length_append, List.length_cons, int32ToBeBytes] at hf ⊢
          omega
        rw [hsplit, fromBeBytesF_map, decodeNullable_zero]
        simp only [decodeMap,
          decodeI32_append (kvs.len : Int) (body ++ rest) (by omega) (by exact_mod_cast h.2)]
        simp only [Int.toNat_natCast]
        rw [hdec f rest .nil hlt (keysFreshIn_nil kvs)]
        simp [GKVList.append]
  | .null, h => by simp [c1Supported] at h
  | .vertex _, h => by simp [c1Supported] at h
  | .edge _, h => by simp [c1Supported] at h
  | .vertexProperty, h => by simp [c1Supported] at h
  | .property, h => by simp [c1Supported] at h
  | .token _, h => by simp [c1Supported] at h
  | .path, h => by simp [c1Supported] at h
  | .traversalMetrics, h => by simp [c1Supported] at h
  | .metric, h => by simp [c1Supported] at h
  | .traversalExplanation, h => by simp [c1Supported] at h
  | .intermediateRepr, h => by simp [c1Supported] at h
  | .p _ _, h => by simp [c1Supported] at h
  | .t _, h => by simp [c1Supported] at h
  | .bytecode _ _, h => by simp [c1Supported] at h
  | .traverser _ _, h => by simp [c1Supported] at h
  | .scope _, h => by simp [c1Supported] at h
  | .order _, h => by simp [c1Supported] at h
  | .bool _, h => by simp [c1Supported] at h
  | .textP _ _, h => by simp [c1Supported] at h
  | .pop _, h => by simp [c1Supported] at h
  | .cardinality _, h => by simp [c1Supported] at h
  | .merge _, h => by simp [c1Supported] at h
  | .direction _, h => by simp [c1Supported] at h
  | .column _, h => by simp [c1Supported] at h

/-- Element lists of the fragment serialize, and the element loop decodes
them back. -/
theorem serdeRoundL : ∀ (xs : GVList), c1SupportedList xs = true →
    ∃ out, serListItems xs = .ok out ∧
      ∀ fuel rest, out.length < fuel →
        decodeItems (GValue.fromBeBytesF fuel) xs.len (out ++ rest) = .ok (xs, rest)
  | .nil, _ => ⟨[], rfl, fun _ rest _ => rfl⟩
  | .cons hd tl, h => by
    simp only [c1SupportedList, Bool.and_eq_true] at h
    obtain ⟨hb, hhs, hhd⟩ := serdeRoundV hd h.1
    obtain ⟨tb, hts, htd⟩ := serdeRoundL tl h.2
    refine ⟨hb ++ tb, ?_, ?_⟩
    · simp only [serListItems, hhs, hts]
    · intro fuel rest hf
      have hlt1 : hb.length < fuel := by
        simp only [List.length_append] at hf; omega
      have hlt2 : tb.length < fuel := by
        simp only [List.length_append] at hf; omega
      have hsplit : (hb ++ tb) ++ rest = hb ++ (tb ++ rest) := by simp
      rw [hsplit]
      simp only [GVList.len, decodeItems, hhd fuel (tb ++ rest) hlt1, htd fuel rest hlt2]

/-- Entry lists of string-keyed fragment maps serialize, and the entry loop
re-inserts them onto any accumulator whose keys they avoid. -/
theorem serdeRoundM : ∀ (kvs : GKVList), c1SupportedMap kvs = true → distinctKeys kvs = true →
    ∃ out, serMapPairs kvs = .ok out ∧
      ∀ fuel rest acc, out.length < fuel → keysFreshIn kvs acc = true →
        decodePairs (GValue.fromBeBytesF fuel) kvs.len acc (out ++ rest)
          = .ok (acc.append kvs, rest)
  | .nil, _, _ =>
    ⟨[], rfl, fun _ rest acc _ _ => by simp [GKVList.len, decodePairs, GKVList.append_nil]⟩
  | .cons (.keyString s) v tl, h1, h2 => by
    simp only [c1SupportedMap, Bool.and_eq_true, decide_eq_true_eq] at h1
    simp only [distinctKeys, Bool.and_eq_true] at h2
    obtain ⟨vb, hvs, hvd⟩ := serdeRoundV v h1.1.2
    obtain ⟨tb, hts, htd⟩ := serdeRoundM tl h1.2 h2.2
    have hkser : GKey.toBeBytes (.keyString s)
        = .ok ([STRING, VALUE_FLAG] ++ (int32ToBeBytes (s.length : Int) ++ s)) := by
      simp only [GKey.toBeBytes]
      exact serFqString_ok s h1.1.1.2
    refine ⟨([STRING, VALUE_FLAG] ++ (int32ToBeBytes (s.length : Int) ++ s)) ++ vb ++ tb,
      ?_, ?_⟩
    · simp only [serMapPairs, hkser, hvs, hts]
    · intro fuel rest acc hf hfresh
      simp only [keysFreshIn, Bool.and_eq_true] at hfresh
      cases fuel with
      | zero => exact absurd hf (Nat.not_lt_zero _)
      | succ f =>
        have hsplit :
            ((([STRING, VALUE_FLAG] ++ (int32ToBeBytes (s.length : Int) ++ s)) ++ vb ++ tb)
              ++ rest)
            = ([STRING, VALUE_FLAG] ++ (int32ToBeBytes (s.length : Int) ++ s))
              ++ (vb ++ (tb ++ rest)) := by simp
        have hvlt : vb.length < f + 1 := by
          simp only [List.length_append] at hf; omega
        have htlt : tb.length < f + 1 := by
          simp only [List.length_append] at hf; omega
        simp only [GKVList.len, decodePairs]
        rw [hsplit, fromBeBytesF_fqString s (vb ++ (tb ++ rest)) h1.1.1.1 h1.1.1.2 f]
        simp only [GKey.fromGValue]
        rw [hvd (f + 1) (tb ++ rest) hvlt]
        have hins := insert_of_keyNotIn (.keyString s) v acc hfresh.1
        have hfresh2 : keysFreshIn tl (acc.append (.cons (.keyString s) v .nil)) = true := by
          rw [keysFreshIn_append]
          simp only [Bool.and_eq_true]
          exact ⟨hfresh.2, keysFreshIn_single_of_keyNotIn (.keyString s) v tl h2.1⟩
        simp only [hins,
          htd (f + 1) rest (acc.append (.cons (.keyString s) v .nil)) htlt hfresh2,
          GKVList.append_assoc, GKVList.append]
  | .cons (.keyT _) _ _, h1, _ => by simp [c1SupportedMap] at h1
  | .cons (.keyToken _) _ _, h1, _ => by simp [c1SupportedMap] at h1
  | .cons (.keyVertex _) _ _, h1, _ => by simp [c1SupportedMap] at h1
  | .cons (.keyEdge _) _ _, h1, _ => by simp [c1SupportedMap] at h1
  | .cons (.keyDirection _) _ _, h1, _ => by simp [c1SupportedMap] at h1
end

/-! ## Claim C1 -/

/-- C1 (amended): for every `GValue` in the codec's round-trip fragment —
Int32, Int64, String, Date, Double, Float, List, Set, string-keyed Map, Uuid,
with `Date` carrying no sub-millisecond remainder (the encoding truncates to
milliseconds, so sub-millisecond dates do not round-trip; see the
counterexample) — serialization succeeds and deserializing the produced
bytes yields the original value with no bytes left over; and the fixed
byte layouts are exact: `Int32 1` is `01 00 00 00 00 01`, the empty string
is `03 00 00 00 00 00`, and UUID `00112233-4455-6677-8899-aabbccddeeff` is
`0C 00` followed by the 16 raw bytes. -/
theorem c1_roundtrip_and_layouts :
    (∀ v : GValue, c1Supported v = true →
      ∃ out, v.toBeBytes = .ok out ∧ GValue.fromBeBytes out = .ok (v, [])) ∧
    GValue.toBeBytes (.int32 1) = .ok [0x01, 0x00, 0x00, 0x00, 0x00, 0x01] ∧
    GValue.toBeBytes (.string []) = .ok [0x03, 0x00, 0x00, 0x00, 0x00, 0x00] ∧
    GValue.toBeBytes
        (.uuid ⟨[0x00, 0x11, 0x22, 0x33, 0x44, 0x55, 0x66, 0x77,
                 0x88, 0x99, 0xAA, 0xBB, 0xCC, 0xDD, 0xEE, 0xFF]⟩)
      = .ok ([0x0C, 0x00] ++ [0x00, 0x11, 0x22, 0x33, 0x44, 0x55, 0x66, 0x77,
                              0x88, 0x99, 0xAA, 0xBB, 0xCC, 0xDD, 0xEE, 0xFF]) := by
  refine ⟨?_, by decide, by decide, by decide⟩
  intro v hv
  obtain ⟨out, hser, hdec⟩ := serdeRoundV v hv
  refine ⟨out, hser, ?_⟩
  have h := hdec (out.length + 1) [] (by omega)
  rw [List.append_nil] at h
  exact h

/-- Witness for C1 at a composite concrete input: a one-element list holding
a map from `"abc"` to `Int32 1`. -/
theorem c1_roundtrip_witness :
    c1Supported (.list (.cons (.map (.cons (.keyString (ascii "abc")) (.int32 1) .nil)) .nil))
      = true ∧
    (∃ out,
      GValue.toBeBytes
          (.list (.cons (.map (.cons (.keyString (ascii "abc")) (.int32 1) .nil)) .nil))
        = .ok out ∧
      GValue.fromBeBytes out
        = .ok (.list (.cons (.map (.cons (.keyString (ascii "abc")) (.int32 1) .nil)) .nil),
            [])) :=
  ⟨by decide,
    c1_roundtrip_and_layouts.1
      (.list (.cons (.map (.cons (.keyString (ascii "abc")) (.int32 1) .nil)) .nil))
      (by decide)⟩

/-- C1 counterexample: a `Date` with a sub-millisecond remainder (1
nanosecond past the epoch) serializes to the epoch millisecond, decodes to
the truncated date, and is not equal to the original — `decode(encode(v)) =
v` fails for the Date variant as claimed. -/
theorem c1_date_counterexample :
    GValue.toBeBytes (.date ⟨0, 1⟩)
        = .ok [0x04, 0x00, 0x00, 0x00, 0x00, 0x00, 0x00, 0x00, 0x00, 0x00] ∧
    GValue.fromBeBytes [0x04, 0x00, 0x00, 0x00, 0x00, 0x00, 0x00, 0x00, 0x00, 0x00]
        = .ok (.date ⟨0, 0⟩, []) ∧
    GValue.date ⟨0, 0⟩ ≠ GValue.date ⟨0, 1⟩ := by
  refine ⟨by decide, by decide, by decide⟩

/-! ## Claim C2 -/

/-- C2: the decoder is total with Cast errors on truncated input and
malformed flag bytes within the supported type codes — but an unrecognized
type-code byte panics (`unimplemented!`), as do the `todo!()` codes
`0x0D`/`0x0E`/`0x0F`: evaluated here at byte `0x00` (no such type code) and
at `0x0D` (Edge), alongside the Cast-error behaviour on empty input,
truncated Int32 payloads, and non-`0x00`/`0x01` flag bytes. -/
theorem c2_decoder_panics_on_unknown_codes :
    GValue.fromBeBytes [0x00] = .error .panic ∧
    GValue.fromBeBytes [0x0D, 0x00] = .error .panic ∧
    GValue.fromBeBytes [] = .error (.cast (.lit "Invalid bytes no data code byte")) ∧
    (∀ bs : List Nat, bs.length < 4 →
      GValue.fromBeBytes (0x01 :: 0x00 :: bs) = .error (.cast (.lit "Invalid bytes into i32"))) ∧
    (∀ b : Nat, b ≠ 0 → b ≠ 1 → ∀ rest : List Nat,
      GValue.fromBeBytes (0x01 :: b :: rest) = .error (.cast (.nullableFlag (some b)))) := by
  refine ⟨rfl, rfl, rfl, ?_, ?_⟩
  · intro bs hlen
    show GValue.fromBeBytesF ((0x01 :: 0x00 :: bs).length + 1) _ = _
    simp only [List.length_cons]
    rw [fromBeBytesF_int32 (bs.length + 1 + 1) (0 :: bs), decodeNullable_zero]
    have hne : ¬ (4 ≤ bs.length) := by omega
    simp [decodeI32, hne]
  · intro b h0 h1 rest
    obtain ⟨b2, rfl⟩ : ∃ b2, b = b2 + 2 := ⟨b - 2, by omega⟩
    rfl

/-- Witness for C2's quantified parts at concrete inputs: a 3-byte Int32
payload and the flag byte `0x05`. -/
theorem c2_decoder_witness :
    ([0xAA, 0xBB, 0xCC] : List Nat).length < 4 ∧
    GValue.fromBeBytes [0x01, 0x00, 0xAA, 0xBB, 0xCC]
      = .error (.cast (.lit "Invalid bytes into i32")) ∧
    GValue.fromBeBytes [0x01, 0x05] = .error (.cast (.nullableFlag (some 5))) :=
  ⟨by decide,
    c2_decoder_panics_on_unknown_codes.2.2.2.1 [0xAA, 0xBB, 0xCC] (by decide),
    c2_decoder_panics_on_unknown_codes.2.2.2.2 5 (by decide) (by decide) []⟩

/-! ## Claim C10 -/

/-- C10 (amended): for every supported non-null type code (Int32 `0x01`,
Int64 `0x02`, String `0x03`, Date `0x04`, Double `0x07`, Float `0x08`, List
`0x09`, Map `0x0A`, Set `0x0B`, UUID `0x0C`, Traverser `0x21`), a
fully-qualified value whose flag byte is `0x01` and which carries no further
payload decodes successfully to `Null`.  (The dedicated unspecified-null
type code `0xFE`, by contrast, has no decoder arm and panics; see the
counterexample.) -/
theorem c10_typed_nulls (code : Nat)
    (h : code ∈ [0x01, 0x02, 0x03, 0x04, 0x07, 0x08, 0x09, 0x0A, 0x0B, 0x0C, 0x21]) :
    ∀ rest : List Nat, GValue.fromBeBytes (code :: 0x01 :: rest) = .ok (.null, rest) := by
  fin_cases h <;> exact fun rest => rfl

/-- Witness for C10 at type code `0x01` with no trailing bytes. -/
theorem c10_typed_nulls_witness :
    (0x01 ∈ [0x01, 0x02, 0x03, 0x04, 0x07, 0x08, 0x09, 0x0A, 0x0B, 0x0C, 0x21]) ∧
    GValue.fromBeBytes [0x01, 0x01] = .ok (.null, []) :=
  ⟨by decide, c10_typed_nulls 0x01 (by decide) []⟩

/-- C10 counterexample: the dedicated unspecified-null code `0xFE` with the
null flag does not decode to `Null` — the decoder has no arm for it and
falls into the `unimplemented!` catch-all, a panic. -/
theorem c10_unspecified_null_counterexample :
    GValue.fromBeBytes [0xFE, 0x01] ≠ .ok (.null, []) ∧
    GValue.fromBeBytes [0xFE, 0x01] = .error .panic := by
  refine ⟨by decide, rfl⟩

/-! ## Claim C3 -/

theorem kvListOfPairs_len : ∀ (args : List (List Nat × GValue)),
    (kvListOfPairs args).len = args.length
  | [] => rfl
  | (_, _) :: tl => by simp [kvListOfPairs, GKVList.len, kvListOfPairs_len tl]

theorem serMapPairs_kvListOfPairs : ∀ (args : List (List Nat × GValue)),
    serMapPairs (kvListOfPairs args) = serRequestArgs args
  | [] => rfl
  | (k, v) :: tl => by
    have hk : GKey.toBeBytes (.keyString k) = GValue.toBeBytes (.string k) := rfl
    simp only [kvListOfPairs, serMapPairs, serRequestArgs, hk, serMapPairs_kvListOfPairs tl]

/-- C3 (amended): the `RequestMessage` serializer produces exactly the
claimed envelope — content-type length byte and string, version byte
`0x81`, 16 raw request-id bytes, length-prefixed op and processor, a bare
4-byte int32 argument count, then fully-qualified key/value pairs — while
the GraphBinary branch of `build_eval_message` writes the same envelope
except that the argument map is serialized fully qualified, inserting the
map type code `0x0A` and value flag `0x00` between the processor and the
4-byte count. -/
theorem c3_request_layouts (requestId : RUuid) (op processor : List Nat)
    (args : List (List Nat × GValue)) (pairsB : List Nat)
    (hop : op.length < 2147483648) (hproc : processor.length < 2147483648)
    (hcount : args.length < 2147483648)
    (hpairs : serRequestArgs args = .ok pairsB) :
    requestMessageToBeBytes requestId op processor args
        = .ok (specRequestBytes requestId op processor (args.length : Int) pairsB) ∧
    buildEvalMessageBinary requestId args
        = .ok (contentTypeHeader ++ [VERSION_BYTE] ++ requestId.bytes ++
            (int32ToBeBytes ((ascii "eval").length : Int) ++ ascii "eval") ++
            int32ToBeBytes (0 : Int) ++
            ([MAP, VALUE_FLAG] ++ (int32ToBeBytes (args.length : Int) ++ pairsB))) := by
  constructor
  · simp [requestMessageToBeBytes, strToBeBytes, hop, hproc, hcount, hpairs, specRequestBytes]
  · have heval : strToBeBytes (ascii "eval")
        = .ok (int32ToBeBytes ((ascii "eval").length : Int) ++ ascii "eval") := by
      rw [strToBeBytes, if_pos (by decide)]
    have hempty : strToBeBytes ([] : List Nat) = .ok (int32ToBeBytes (0 : Int)) := by decide
    have hmap : GValue.toBeBytes (.map (kvListOfPairs args))
        = .ok ([MAP, VALUE_FLAG] ++ (int32ToBeBytes (args.length : Int) ++ pairsB)) := by
      have hw : writeUsizeAsI32 (kvListOfPairs args).len
          = .ok (int32ToBeBytes (args.length : Int)) := by
        rw [kvListOfPairs_len, writeUsizeAsI32, if_pos hcount]
      simp only [GValue.toBeBytes, hw, serMapPairs_kvListOfPairs, hpairs]
      simp [MAP, VALUE_FLAG]
    simp only [buildEvalMessageBinary, heval, hempty, hmap]

/-- Witness for C3 at a concrete request: a fresh all-zero request id, op
`"eval"`, the default processor and an empty argument map. -/
theorem c3_request_layouts_witness :
    (ascii "eval").length < 2147483648 ∧ ([] : List Nat).length < 2147483648 ∧
    ([] : List (List Nat × GValue)).length < 2147483648 ∧
    serRequestArgs [] = .ok [] ∧
    (requestMessageToBeBytes ⟨List.replicate 16 0⟩ (ascii "eval") [] []
        = .ok (specRequestBytes ⟨List.replicate 16 0⟩ (ascii "eval") [] 0 []) ∧
      buildEvalMessageBinary ⟨List.replicate 16 0⟩ []
        = .ok (contentTypeHeader ++ [VERSION_BYTE] ++ (⟨List.replicate 16 0⟩ : RUuid).bytes ++
            (int32ToBeBytes ((ascii "eval").length : Int) ++ ascii "eval") ++
            int32ToBeBytes (0 : Int) ++
            ([MAP, VALUE_FLAG] ++ (int32ToBeBytes (0 : Int) ++ [])))) :=
  ⟨by decide, by decide, by decide, rfl,
    c3_request_layouts ⟨List.replicate 16 0⟩ (ascii "eval") [] [] []
      (by decide) (by decide) (by decide) rfl⟩

/-- C3 counterexample: with an all-zero request id and no arguments, the
GraphBinary `build_eval_message` output is not the claimed envelope (it
carries the extra `0x0A 0x00` before the argument count). -/
theorem c3_buildeval_counterexample :
    buildEvalMessageBinary ⟨List.replicate 16 0⟩ []
      ≠ .ok (specRequestBytes ⟨List.replicate 16 0⟩ (ascii "eval") [] 0 []) := by
  decide

/-! ## Claim C4 -/

/-- C4 (evaluating the code at the failing input): on a 407 with credentials
configured, `pool.rs`'s `is_valid` sends exactly one authentication request
reusing the 407 response's request id, and a second 407 is a hard `Request`
failure carrying the second response's (code, message); without credentials
the 407 fails immediately with a `Request` error after only the probe.  But
`client.rs`'s `read_response` on the same 407-with-credentials input builds
the authentication message (with the reused id) and then panics at its
`todo!()` — it never sends the authentication request. -/
theorem c4_auth_retry :
    (poolIsValid (some ⟨ascii "user", ascii "pass"⟩)
        (.ok ⟨⟨List.replicate 16 7⟩, none, ⟨407, ascii "auth required"⟩⟩)
        (.ok ⟨⟨List.replicate 16 7⟩, none, ⟨407, ascii "rejected"⟩⟩))
      = (.error (.request 407 (ascii "rejected")),
          [probeMessage, authMessage ⟨ascii "user", ascii "pass"⟩ ⟨List.replicate 16 7⟩]) ∧
    (poolIsValid none
        (.ok ⟨⟨List.replicate 16 7⟩, none, ⟨407, ascii "auth required"⟩⟩)
        (.ok ⟨⟨List.replicate 16 7⟩, none, ⟨407, ascii "rejected"⟩⟩))
      = (.error (.request 407 (ascii "auth required")), [probeMessage]) ∧
    clientReadResponse (some ⟨ascii "user", ascii "pass"⟩)
        ⟨⟨List.replicate 16 7⟩, none, ⟨407, ascii "auth required"⟩⟩
      = .panicAfterBuildingAuth
          (authMessage ⟨ascii "user", ascii "pass"⟩ ⟨List.replicate 16 7⟩) := by
  refine ⟨by decide, by decide, by decide⟩

/-! ## Claim C5 -/

/-- C5: the health-check probe succeeds exactly when the first response's
status is 200, 204 or 206, or when it is 407 with credentials configured and
the authentication continuation's response has status 200, 204, 206 or 401;
every other outcome (another code, 407 without credentials, or a failed
receive/decode on either round) is an error, and `has_broken` reports
exactly the transport-level broken flag. -/
theorem c5_pool_health_check (creds : Option Credentials)
    (recv1 recv2 : Except GremlinError Response) :
    ((poolIsValid creds recv1 recv2).1 = .ok () ↔
      (∃ r1, recv1 = .ok r1 ∧
        (r1.status.code = 200 ∨ r1.status.code = 204 ∨ r1.status.code = 206 ∨
          (r1.status.code = 407 ∧ creds.isSome = true ∧
            ∃ r2, recv2 = .ok r2 ∧
              (r2.status.code = 200 ∨ r2.status.code = 204 ∨ r2.status.code = 206 ∨
                r2.status.code = 401))))) ∧
    (∀ conn : Connection, hasBroken conn = conn.isBroken) := by
  refine ⟨?_, fun _ => rfl⟩
  cases recv1 with
  | error e => simp [poolIsValid]
  | ok r1 =>
    by_cases h1 : r1.status.code = 200 ∨ r1.status.code = 206
    · simp only [poolIsValid, if_pos h1]
      simp
      tauto
    · by_cases h2 : r1.status.code = 204
      · simp only [poolIsValid, if_neg h1, if_pos h2]
        simp [h2]
      · by_cases h3 : r1.status.code = 407
        · cases creds with
          | none =>
            simp only [poolIsValid, if_neg h1, if_neg h2, if_pos h3]
            simp
            tauto
          | some c =>
            cases recv2 with
            | error e =>
              simp only [poolIsValid, if_neg h1, if_neg h2, if_pos h3]
              simp
              tauto
            | ok r2 =>
              by_cases h4 : r2.status.code = 200 ∨ r2.status.code = 206
              · simp only [poolIsValid, if_neg h1, if_neg h2, if_pos h3, if_pos h4]
                simp [h3]
                tauto
              · by_cases h5 : r2.status.code = 204
                · simp only [poolIsValid, if_neg h1, if_neg h2, if_pos h3, if_neg h4,
                    if_pos h5]
                  simp [h3, h5]
                · by_cases h6 : r2.status.code = 401
                  · simp only [poolIsValid, if_neg h1, if_neg h2, if_pos h3, if_neg h4,
                      if_neg h5, if_pos h6]
                    simp [h3, h6]
                  · simp only [poolIsValid, if_neg h1, if_neg h2, if_pos h3, if_neg h4,
                      if_neg h5, if_neg h6]
                    simp
                    tauto
        · simp only [poolIsValid, if_neg h1, if_neg h2, if_neg h3]
          simp
          tauto

/-! ## Claim C6 -/

/-- C6 (evaluating the code at the failing input): `close_session` on a live
session takes the session and then panics at its `todo!()` (the send is
commented out), so it never returns successfully and sends no close
request; a second `close_session` (session already `None`) fails with
`Generic("No session to close")` and sends nothing; and `execute` on a
session-less client proceeds down the anonymous path (processor `""`) and
ends at the unfinished dispatch `todo!()` — it does not fail with a Generic
error. -/
theorem c6_session_close :
    closeSession (some (ascii "demo")) .graphSONV3 = (.panicked, none, 0) ∧
    closeSession none .graphSONV3 = (.failed (.generic "No session to close"), none, 0) ∧
    (clientExecute none none .graphSONV3 (ascii "g.V()") []).processor = "" ∧
    (clientExecute none none .graphSONV3 (ascii "g.V()") []).outcome = .panicked ∧
    (clientExecute none none .graphSONV3 (ascii "g.V()") []).outcome
      ≠ .failed (.generic "No session to close") := by
  refine ⟨by decide, by decide, by decide, by decide, by decide⟩

/-! ## Claim C7 -/

/-- C7 (amended): string, vertex, edge and direction keys convert to a
`GValue` and back to an equal key; a token key, however, converts to the
`GValue::String` of its value (the source's `From<GKey>` collapses it), so
the guarded reverse conversion returns the corresponding string key — not a
key equal to the original token key; and the reverse conversion fails on
`GValue` variants that are not valid keys. -/
theorem c7_key_conversions :
    (∀ s, GKey.fromGValue (gkeyToGValue (.keyString s)) = .ok (.keyString s)) ∧
    (∀ id, GKey.fromGValue (gkeyToGValue (.keyVertex id)) = .ok (.keyVertex id)) ∧
    (∀ e, GKey.fromGValue (gkeyToGValue (.keyEdge e)) = .ok (.keyEdge e)) ∧
    (∀ d, GKey.fromGValue (gkeyToGValue (.keyDirection d)) = .ok (.keyDirection d)) ∧
    (∀ tk, GKey.fromGValue (gkeyToGValue (.keyToken tk)) = .ok (.keyString tk.value)) ∧
    (∀ n, GKey.fromGValue (.int32 n) = .error (.cast (.fmt (.int32 n) "GKey"))) ∧
    GKey.fromGValue .null = .error (.cast (.fmt .null "GKey")) ∧
    (∀ xs, GKey.fromGValue (.list xs) = .error (.cast (.fmt (.list xs) "GKey"))) :=
  ⟨fun _ => rfl, fun _ => rfl, fun _ => rfl, fun _ => rfl, fun _ => rfl,
    fun _ => rfl, rfl, fun _ => rfl⟩

/-- C7 counterexample: the token key `Token("label")` converts to
`GValue::String("label")`, whose guarded reverse conversion yields the
string key — not a key equal to the original token key. -/
theorem c7_token_counterexample :
    GKey.fromGValue (gkeyToGValue (.keyToken ⟨ascii "label"⟩))
      = .ok (.keyString (ascii "label")) ∧
    GKey.keyString (ascii "label") ≠ GKey.keyToken ⟨ascii "label"⟩ := by
  refine ⟨rfl, by decide⟩

/-! ## Claim C8 -/

/-- C8 (amended): each scalar conversion succeeds on its own variant; the
transparent one-element-list unwrap applies to the `String`, `i32`, `i64`,
`f32` and `f64` targets (and recurses through nested singleton lists), but
`Uuid`, `Date` and `bool` have no list arm and reject a one-element list
with a Cast error; mismatches carry `Cannot cast <source> to <target>`,
except that the `i64` conversion names `i32` as its target and a
failed list unwrap reports `Cannot cast a List to String` whatever the
target. -/
theorem c8_scalar_conversions :
    (∀ s, tryFromString (.string s) = .ok s) ∧
    (∀ s, tryFromString (.list (.cons (.string s) .nil)) = .ok s) ∧
    (∀ n, tryFromI32 (.int32 n) = .ok n) ∧
    (∀ n, tryFromI32 (.list (.cons (.int32 n) .nil)) = .ok n) ∧
    (∀ n, tryFromI32 (.list (.cons (.list (.cons (.int32 n) .nil)) .nil)) = .ok n) ∧
    (∀ n, tryFromI64 (.int64 n) = .ok n) ∧
    (∀ n, tryFromI64 (.list (.cons (.int64 n) .nil)) = .ok n) ∧
    (∀ b, tryFromF32 (.float b) = .ok b) ∧
    (∀ b, tryFromF32 (.list (.cons (.float b) .nil)) = .ok b) ∧
    (∀ b, tryFromF64 (.double b) = .ok b) ∧
    (∀ b, tryFromF64 (.list (.cons (.double b) .nil)) = .ok b) ∧
    (∀ u, tryFromUuid (.uuid u) = .ok u) ∧
    (∀ d, tryFromDate (.date d) = .ok d) ∧
    (∀ b, tryFromBool (.bool b) = .ok b) ∧
    (∀ u, tryFromUuid (.list (.cons (.uuid u) .nil))
      = .error (.cast (.fmt (.list (.cons (.uuid u) .nil)) "Uuid"))) ∧
    (∀ d, tryFromDate (.list (.cons (.date d) .nil))
      = .error (.cast (.fmt (.list (.cons (.date d) .nil)) "DateTime<Utc>"))) ∧
    (∀ b, tryFromBool (.list (.cons (.bool b) .nil))
      = .error (.cast (.fmt (.list (.cons (.bool b) .nil)) "bool"))) ∧
    (∀ n, tryFromString (.int32 n) = .error (.cast (.fmt (.int32 n) "String"))) ∧
    (∀ n, tryFromI64 (.int32 n) = .error (.cast (.fmt (.int32 n) "i32"))) ∧
    tryFromI32 (.list .nil) = .error (.cast (.lit "Cannot cast a List to String")) :=
  ⟨fun _ => rfl, fun _ => rfl, fun _ => rfl, fun _ => rfl, fun _ => rfl, fun _ => rfl,
    fun _ => rfl, fun _ => rfl, fun _ => rfl, fun _ => rfl, fun _ => rfl, fun _ => rfl,
    fun _ => rfl, fun _ => rfl, fun _ => rfl, fun _ => rfl, fun _ => rfl, fun _ => rfl,
    fun _ => rfl, rfl⟩

/-- C8 counterexample: a one-element list holding a `bool` does not unwrap
when converting to `bool` — the conversion has no list arm and fails with a
Cast error, contrary to the claimed transparent unwrap. -/
theorem c8_bool_list_counterexample :
    tryFromBool (.list (.cons (.bool true) .nil)) ≠ .ok true := by decide

/-! ## Claim C9 -/

mutual
/-- Values containing no list, set or map anywhere the GraphSON writer
recurses (through vertex ids, predicate values and bytecode arguments). -/
def collectionFree : GValue → Bool
  | .list _ => false
  | .set _ => false
  | .map _ => false
  | .vertex id => collectionFree id
  | .p _ pv => collectionFree pv
  | .textP _ pv => collectionFree pv
  | .bytecode steps sources => collectionFreeInstr steps && collectionFreeInstr sources
  | _ => true
termination_by structural v => v

/-- All instruction arguments collection-free. -/
def collectionFreeInstr : GInstrList → Bool
  | .nil => true
  | .cons _ args tl => collectionFreeList args && collectionFreeInstr tl
termination_by structural l => l

/-- All elements collection-free. -/
def collectionFreeList : GVList → Bool
  | .nil => true
  | .cons hd tl => collectionFree hd && collectionFreeList tl
termination_by structural xs => xs
end

mutual
/-- On collection-free values the v2 and v3 writers agree. -/
theorem writeGraphsonEqV : ∀ (v : GValue), collectionFree v = true →
    writeGraphson .graphSONV2 v = writeGraphson .graphSONV3 v
  | .null, _ => rfl
  | .vertex id, h => by
    simp only [collectionFree] at h
    simp only [writeGraphson, writeGraphsonEqV id h]
  | .edge _, _ => rfl
  | .vertexProperty, _ => rfl
  | .property, _ => rfl
  | .uuid _, _ => rfl
  | .int32 _, _ => rfl
  | .int64 _, _ => rfl
  | .float _, _ => rfl
  | .double _, _ => rfl
  | .date _, _ => rfl
  | .list _, h => by simp [collectionFree] at h
  | .set _, h => by simp [collectionFree] at h
  | .map _, h => by simp [collectionFree] at h
  | .token _, _ => rfl
  | .string _, _ => rfl
  | .path, _ => rfl
  | .traversalMetrics, _ => rfl
  | .metric, _ => rfl
  | .traversalExplanation, _ => rfl
  | .intermediateRepr, _ => rfl
  | .p operator pv, h => by
    simp only [collectionFree] at h
    simp only [writeGraphson, writeGraphsonEqV pv h]
  | .t _, _ => rfl
  | .bytecode steps sources, h => by
    simp only [collectionFree, Bool.and_eq_true] at h
    simp only [writeGraphson, writeGraphsonEqInstr steps h.1, writeGraphsonEqInstr sources h.2]
  | .traverser _ _, _ => rfl
  | .scope _, _ => rfl
  | .order _, _ => rfl
  | .bool _, _ => rfl
  | .textP operator pv, h => by
    simp only [collectionFree] at h
    simp only [writeGraphson, writeGraphsonEqV pv h]
  | .pop _, _ => rfl
  | .cardinality _, _ => rfl
  | .merge _, _ => rfl
  | .direction _, _ => rfl
  | .column _, _ => rfl

/-- On collection-free elements the v2 and v3 element writers agree. -/
theorem writeGraphsonEqL : ∀ (xs : GVList), collectionFreeList xs = true →
    writeGraphsonList .graphSONV2 xs = writeGraphsonList .graphSONV3 xs
  | .nil, _ => rfl
  | .cons hd tl, h => by
    simp only [collectionFreeList, Bool.and_eq_true] at h
    simp only [writeGraphsonList, writeGraphsonEqV hd h.1, writeGraphsonEqL tl h.2]

/-- On collection-free instruction lists the v2 and v3 writers agree. -/
theorem writeGraphsonEqInstr : ∀ (l : GInstrList), collectionFreeInstr l = true →
    writeGraphsonInstructions .graphSONV2 l = writeGraphsonInstructions .graphSONV3 l
  | .nil, _ => rfl
  | .cons operator args tl, h => by
    simp only [collectionFreeInstr, Bool.and_eq_true] at h
    simp only [writeGraphsonInstructions, writeGraphsonEqL args h.1,
      writeGraphsonEqInstr tl h.2]
end

/-- C9 (amended): v2 writes a list as a native JSON array of its encoded
elements where v3 wraps it as a tagged `g:List`; v2 writes a map as a
native JSON object (string keys enforced) where v3 wraps the flattened
key/value writes as a tagged `g:Map`; and the two versions agree on every
value whose nested contents are collection-free (a non-collection variant
embedding a list or map — e.g. a `P` value — differs between the versions
in that embedded collection's tagging; see the counterexample). -/
theorem c9_v2_v3_tagging :
    (∀ (xs : GVList) (elems : JList), writeGraphsonList .graphSONV2 xs = .ok elems →
      writeGraphson .graphSONV2 (.list xs) = .ok (.arr elems)) ∧
    (∀ (xs : GVList) (elems : JList), writeGraphsonList .graphSONV3 xs = .ok elems →
      writeGraphson .graphSONV3 (.list xs) = .ok (gsTagged "g:List" (.arr elems))) ∧
    (∀ (kvs : GKVList) (fields : JObj), writeGraphsonMapV2 .graphSONV2 kvs .nil = .ok fields →
      writeGraphson .graphSONV2 (.map kvs) = .ok (.obj fields)) ∧
    (∀ (kvs : GKVList) (flat : JList), writeGraphsonMapV3 .graphSONV3 kvs = .ok flat →
      writeGraphson .graphSONV3 (.map kvs) = .ok (gsTagged "g:Map" (.arr flat))) ∧
    (∀ v : GValue, collectionFree v = true →
      writeGraphson .graphSONV2 v = writeGraphson .graphSONV3 v) := by
  refine ⟨?_, ?_, ?_, ?_, writeGraphsonEqV⟩
  · intro xs elems h
    simp only [writeGraphson, h]
  · intro xs elems h
    simp only [writeGraphson, h]
  · intro kvs fields h
    simp only [writeGraphson, h]
  · intro kvs flat h
    simp only [writeGraphson, h]

/-- Witness for C9 at concrete inputs: the empty list under both versions,
and a collection-free `P` value written identically. -/
theorem c9_v2_v3_witness :
    writeGraphsonList .graphSONV2 .nil = .ok .nil ∧
    writeGraphson .graphSONV2 (.list .nil) = .ok (.arr .nil) ∧
    writeGraphson .graphSONV3 (.list .nil) = .ok (gsTagged "g:List" (.arr .nil)) ∧
    collectionFree (.p (ascii "eq") (.int32 7)) = true ∧
    writeGraphson .graphSONV2 (.p (ascii "eq") (.int32 7))
      = writeGraphson .graphSONV3 (.p (ascii "eq") (.int32 7)) :=
  ⟨rfl, c9_v2_v3_tagging.1 .nil .nil rfl, c9_v2_v3_tagging.2.1 .nil .nil rfl,
    by decide, c9_v2_v3_tagging.2.2.2.2 (.p (ascii "eq") (.int32 7)) (by decide)⟩

/-- C9 counterexample: the non-collection variant `P` with an (empty) list
as its predicate value encodes differently under v2 and v3 — the embedded
list is tagged only under v3 — so non-collection variants do not all encode
identically as claimed. -/
theorem c9_p_counterexample :
    writeGraphson .graphSONV2 (.p (ascii "eq") (.list .nil))
      ≠ writeGraphson .graphSONV3 (.p (ascii "eq") (.list .nil)) := by decide
